import Mathlib

/-!
Shallow embedding of the Generative-BI SQL pipeline.

The development models, faithfully to the Python source:
* `V5/auth/authorization_manager.py` — permission predicates, the lexical
  extraction of tables/columns from SQL text, and statement authorization
  (Layer 2);
* `V7/agents/enterprise_sql_agent.py` — SQL cleaning, the enhanced validator,
  required-table prediction, pre-generation authorization (Layer 1), the
  foreign-key closure of the schema context, connection-scoped execution
  (Layer 3) and `process_query`;
* `V2/agents/sql_agent_fixed.py` — the output parser, the validation /
  refinement state machine and `process_query`.

External collaborators (the text-completion oracle, the semantic index and
the database engine) are modelled as parameters: oracle answers are plain
strings, database success is a boolean function of the submitted SQL text.
Python regular expressions are implemented as explicit character scanners
with the same matching semantics.
-/

namespace GenBI

/-! ### Character and string utilities (Python `str` semantics) -/

/-- Python whitespace as matched by `\s` and `str.strip()` / `str.split()`. -/
def isWsChar (c : Char) : Bool :=
  c == ' ' || c == '\t' || c == '\n' || c == '\r' || c == '\x0b' || c == '\x0c'

/-- Word characters of the regex class `[a-zA-Z0-9_]`. -/
def isWordChar (c : Char) : Bool := c.isAlpha || c.isDigit || c == '_'

/-- Leading characters of identifiers, regex class `[a-zA-Z_]`. -/
def isIdentStart (c : Char) : Bool := c.isAlpha || c == '_'

/-- Python `str.lower()` on a character list (ASCII inputs). -/
def lowerChars (l : List Char) : List Char := l.map Char.toLower

/-- Python `str.upper()` on a character list (ASCII inputs). -/
def upperChars (l : List Char) : List Char := l.map Char.toUpper

/-- Python `str.lower()`. -/
def lowerStr (s : String) : String := String.mk (lowerChars s.toList)

/-- Python `str.upper()`. -/
def upperStr (s : String) : String := String.mk (upperChars s.toList)

/-- Whether the first list is a prefix of the second. -/
def prefixChars : List Char → List Char → Bool
  | [], _ => true
  | _ :: _, [] => false
  | a :: as, b :: bs => a == b && prefixChars as bs

/-- Whether `needle` occurs as a contiguous substring, Python `needle in hay`. -/
def subChars (needle : List Char) : List Char → Bool
  | [] => needle.isEmpty
  | c :: rest => prefixChars needle (c :: rest) || subChars needle rest

/-- Python `sub in hay` for strings. -/
def containsSub (hay sub : String) : Bool := subChars sub.toList hay.toList

/-- Length of the leading whitespace run (what `\s*` consumes greedily). -/
def wsRunLen : List Char → Nat
  | c :: rest => if isWsChar c then wsRunLen rest + 1 else 0
  | [] => 0

/-- Length of the leading `[a-zA-Z0-9_]*` run. -/
def wordRunLen : List Char → Nat
  | c :: rest => if isWordChar c then wordRunLen rest + 1 else 0
  | [] => 0

/-- Python `str.strip()` on a character list. -/
def stripChars (l : List Char) : List Char :=
  ((l.dropWhile isWsChar).reverse.dropWhile isWsChar).reverse

/-- Python `str.strip()`. -/
def pyStrip (s : String) : String := String.mk (stripChars s.toList)

/-- Worker for Python `str.split()` with no separator: split on whitespace
runs, dropping empty pieces.  The accumulator holds the current word,
reversed. -/
def splitWsAux : List Char → List Char → List String
  | [], acc => if acc.isEmpty then [] else [String.mk acc.reverse]
  | c :: rest, acc =>
    if isWsChar c then
      if acc.isEmpty then splitWsAux rest [] else String.mk acc.reverse :: splitWsAux rest []
    else splitWsAux rest (c :: acc)

/-- Python `sep.join(parts)`. -/
def joinSep (sep : String) : List String → String
  | [] => ""
  | x :: rest => rest.foldl (fun acc y => acc ++ sep ++ y) x

/-- Python `s.split(',')`: split at every comma, keeping empty pieces.  The
accumulator holds the current piece, reversed. -/
def splitCommaAux : List Char → List Char → List String
  | [], acc => [String.mk acc.reverse]
  | c :: rest, acc =>
    if c == ',' then String.mk acc.reverse :: splitCommaAux rest []
    else splitCommaAux rest (c :: acc)

/-- Python `s.split(',')`. -/
def splitComma (s : String) : List String := splitCommaAux s.toList []

/-- Python `' '.join(s.split())`: collapse every whitespace run to one space. -/
def normalizeWs (s : String) : String := joinSep (" ") (splitWsAux s.toList [])

/-- Python `s.rstrip(';')`: drop every trailing semicolon. -/
def rstripSemis (s : String) : String :=
  String.mk ((s.toList.reverse.dropWhile (fun c => c == ';')).reverse)

/-! ### Permissions and predicates (`V5/auth/authorization_manager.py`) -/

/-- The `permissions` dictionary attached to a principal:
`{databases: [...], tables: [...], columns: [...]}`; the token `"*"` means
unrestricted for that dimension. -/
structure Permissions where
  databases : List String
  tables : List String
  columns : List String
deriving DecidableEq

/-- `AuthorizationManager.check_table_access`:
`"*" in allowed_tables or table_name in allowed_tables`. -/
def check_table_access (table : String) (p : Permissions) : Bool :=
  p.tables.contains ("*") || p.tables.contains table

/-- `AuthorizationManager.check_column_access`: wildcard, then the
`table.column` form, then the bare column name. -/
def check_column_access (table column : String) (p : Permissions) : Bool :=
  p.columns.contains ("*") || p.columns.contains (table ++ "." ++ column)
    || p.columns.contains column

/-! ### Lexical extraction of SQL objects (`extract_sql_objects`)

The Python code runs three regexes over `sql_query.lower()`:
`\bfrom\s+([a-zA-Z_][a-zA-Z0-9_]*(?:\.[a-zA-Z_][a-zA-Z0-9_]*)?)` and the
same with `join` for tables, and `\bselect\s+(.*?)\s+from` (DOTALL) whose
captured clause is scanned with
`([a-zA-Z_][a-zA-Z0-9_]*(?:\.[a-zA-Z_][a-zA-Z0-9_]*)?)` for columns.
The scanners below implement exactly these patterns. -/

/-- Parse an identifier optionally qualified by `.identifier` at the head of
the list; returns the captured text and the number of characters consumed.
This is the regex `[a-zA-Z_][a-zA-Z0-9_]*(?:\.[a-zA-Z_][a-zA-Z0-9_]*)?`. -/
def parseQualIdent (l : List Char) : Option (String × Nat) :=
  match l with
  | [] => none
  | c :: _ =>
    if isIdentStart c then
      let n1 := wordRunLen l
      let rest1 := l.drop n1
      match rest1 with
      | '.' :: d :: _ =>
        if isIdentStart d then
          let n2 := wordRunLen (rest1.drop 1)
          some (String.mk (l.take n1) ++ "." ++ String.mk ((rest1.drop 1).take n2), n1 + 1 + n2)
        else some (String.mk (l.take n1), n1)
      | _ => some (String.mk (l.take n1), n1)
    else none

/-- Regex word boundary `\b` test before position `i`. -/
def boundaryAt (s : List Char) (i : Nat) : Bool :=
  i == 0 || !(isWordChar (s.getD (i - 1) ' '))

/-- The literal `from`. -/
def fromChars : List Char := ['f', 'r', 'o', 'm']

/-- The literal `join`. -/
def joinChars : List Char := ['j', 'o', 'i', 'n']

/-- The literal `select`. -/
def selectChars : List Char := ['s', 'e', 'l', 'e', 'c', 't']

/-- `re.findall` worker for `\bKW\s+(qualified-identifier)`: scan position
`i` left to right; on a match capture the identifier and resume after it
(non-overlapping matches), otherwise advance one position. -/
def scanKwIdentsAux (kw s : List Char) : Nat → Nat → List String
  | 0, _ => []
  | fuel + 1, i =>
    if i < s.length then
      if boundaryAt s i && prefixChars kw (s.drop i) then
        let afterKw := (s.drop i).drop kw.length
        let w := wsRunLen afterKw
        if w == 0 then scanKwIdentsAux kw s fuel (i + 1)
        else
          match parseQualIdent (afterKw.drop w) with
          | some (ident, n) => ident :: scanKwIdentsAux kw s fuel (i + kw.length + w + n)
          | none => scanKwIdentsAux kw s fuel (i + 1)
      else scanKwIdentsAux kw s fuel (i + 1)
    else []

/-- All captures of `\bKW\s+(qualified-identifier)` in `s`. -/
def scanKwIdents (kw s : List Char) : List String := scanKwIdentsAux kw s (s.length + 1) 0

/-- Find the least position `e ≥ start` at which `\s+KW` matches: a nonempty
whitespace run followed immediately by the literal `kw`. -/
def findWsThen (kw s : List Char) : Nat → Nat → Option Nat
  | 0, _ => none
  | fuel + 1, e =>
    if e < s.length then
      let suff := s.drop e
      let r := wsRunLen suff
      if (r != 0) && prefixChars kw (suff.drop r) then some e
      else findWsThen kw s fuel (e + 1)
    else none

/-- `re.search(r'\bselect\s+(.*?)\s+from', s, DOTALL)`: at the first
word-bounded `select` followed by at least one whitespace character, the
lazy group ends at the least position where `\s+from` matches; when no such
position exists the greedy `\s+` after `select` backtracks by one character,
which succeeds with an empty group exactly when the whitespace run has
length at least two and `from` starts right after it.  When the whole
attempt fails the search resumes at the next `select` occurrence. -/
def scanSelectClauseAux (s : List Char) : Nat → Nat → Option (List Char)
  | 0, _ => none
  | fuel + 1, i =>
    if i < s.length then
      if boundaryAt s i && prefixChars selectChars (s.drop i) then
        let base := i + 6
        let w := wsRunLen (s.drop base)
        if w == 0 then scanSelectClauseAux s fuel (i + 1)
        else
          match findWsThen fromChars s (s.length + 1) (base + w) with
          | some e => some ((s.drop (base + w)).take (e - (base + w)))
          | none =>
            if decide (2 ≤ w) && prefixChars fromChars (s.drop (base + w)) then some []
            else scanSelectClauseAux s fuel (i + 1)
      else scanSelectClauseAux s fuel (i + 1)
    else none

/-- The captured `SELECT` clause of `\bselect\s+(.*?)\s+from`, if any. -/
def scanSelectClause (s : List Char) : Option (List Char) := scanSelectClauseAux s (s.length + 1) 0

/-- `re.findall` of the bare qualified-identifier pattern over the captured
`SELECT` clause: every identifier-like token is captured, keywords and
function names included. -/
def scanIdentsAux (s : List Char) : Nat → Nat → List String
  | 0, _ => []
  | fuel + 1, i =>
    if i < s.length then
      match parseQualIdent (s.drop i) with
      | some (ident, n) => ident :: scanIdentsAux s fuel (i + n)
      | none => scanIdentsAux s fuel (i + 1)
    else []

/-- All identifier-like captures in a clause. -/
def scanIdents (s : List Char) : List String := scanIdentsAux s (s.length + 1) 0

/-- Python `list(set(xs))`, modelled as first-occurrence deduplication (the
set iteration order is unspecified in Python; only membership matters to the
authorization decision). -/
def dedup (l : List String) : List String :=
  l.foldl (fun acc x => if acc.contains x then acc else acc ++ [x]) []

/-- The `{tables, columns}` result of `extract_sql_objects`. -/
structure SqlObjects where
  tables : List String
  columns : List String
deriving DecidableEq

/-- `AuthorizationManager.extract_sql_objects`: lowercase the SQL text,
collect `from`/`join` targets as tables and every identifier-like token of
the `select ... from` clause as a column. -/
def extract_sql_objects (sql : String) : SqlObjects :=
  let low := lowerChars sql.toList
  let tables := scanKwIdents fromChars low ++ scanKwIdents joinChars low
  let columns :=
    match scanSelectClause low with
    | some clause => scanIdents clause
    | none => []
  ⟨dedup tables, dedup columns⟩

/-- Python `column.split(".", 1)`: the part before the first dot and the
remainder after it. -/
def splitDotOnce (c : String) : String × String :=
  let p := c.toList.span (fun ch => ch != '.')
  (String.mk p.1, String.mk (p.2.drop 1))

/-- Access decision of `authorize_sql_query` for one extracted column: a
qualified column checks against its named table, an unqualified column is
granted when at least one referenced table covers it. -/
def columnAuthorized (tables : List String) (p : Permissions) (c : String) : Bool :=
  if c.toList.contains '.' then
    let pr := splitDotOnce c
    check_column_access pr.1 pr.2 p
  else tables.any (fun t => check_column_access t c p)

/-- `AuthorizationManager.authorize_sql_query`: deny at the first table
without access, then at the first column without access, else authorize. -/
def authorize_sql_query (sql : String) (p : Permissions) : Bool × String :=
  let objs := extract_sql_objects sql
  match objs.tables.find? (fun t => !check_table_access t p) with
  | some t => (false, "Access denied to table: " ++ t)
  | none =>
    match objs.columns.find? (fun c => !columnAuthorized objs.tables p c) with
    | some c => (false, "Access denied to column: " ++ c)
    | none => (true, "Query authorized")

/-! ### Claim C10 -/

/-- C10.  Layer-2 statement authorization lowercases the SQL text and treats
every identifier-like token captured between `SELECT` and `FROM` as a
referenced column, keywords and function names included; hence for a
principal whose column permissions lack the `"*"` wildcard, any query whose
extracted `SELECT`-clause tokens include a token `w` listed neither bare nor
as `table.w` for any referenced table is denied by `authorize_sql_query`. -/
theorem layer2_unlisted_select_token_denied
    (sql : String) (p : Permissions) (w : String)
    (hstar : p.columns.contains ("*") = false)
    (hw : w ∈ (extract_sql_objects sql).columns)
    (hdot : w.toList.contains '.' = false)
    (hbare : p.columns.contains w = false)
    (hqual : ∀ t ∈ (extract_sql_objects sql).tables, p.columns.contains (t ++ "." ++ w) = false) :
    (authorize_sql_query sql p).1 = false := by
  have hcol : columnAuthorized (extract_sql_objects sql).tables p w = false := by
    unfold columnAuthorized
    rw [hdot]
    simp only [Bool.false_eq_true, if_false, List.any_eq_true, not_exists]
    rw [Bool.eq_false_iff]
    intro hx
    rcases List.any_eq_true.mp hx with ⟨t, ht, hacc⟩
    unfold check_column_access at hacc
    rw [hstar, hqual t ht, hbare] at hacc
    simp at hacc
  unfold authorize_sql_query
  cases htf : (extract_sql_objects sql).tables.find? (fun t => !check_table_access t p) with
  | some t => simp [htf]
  | none =>
    cases hcf : (extract_sql_objects sql).columns.find?
        (fun c => !columnAuthorized (extract_sql_objects sql).tables p c) with
    | some c => simp [htf, hcf]
    | none =>
      exfalso
      have hnone := List.find?_eq_none.mp hcf w hw
      rw [hcol] at hnone
      simp at hnone

/-- Witness for C10: the query
`SELECT count(DISTINCT customer_id) AS cnt FROM orders` has `count` among
its extracted columns, and a principal whose column permissions are
`[customer_id, cnt, as, distinct]` (no wildcard, no `count`) is denied. -/
theorem layer2_unlisted_select_token_denied_witness :
    "count" ∈ (extract_sql_objects ("SELECT count(DISTINCT customer_id) AS cnt FROM orders")).columns
    ∧ (authorize_sql_query ("SELECT count(DISTINCT customer_id) AS cnt FROM orders")
        ⟨["*"], ["orders"], ["customer_id", "cnt", "as", "distinct"]⟩).1 = false :=
  ⟨by decide,
   layer2_unlisted_select_token_denied _ _ ("count")
     (by decide) (by decide) (by decide) (by decide) (by decide)⟩

/-! ### V7 enterprise agent (`V7/agents/enterprise_sql_agent.py`)

`EnterpriseSQLAgent` collaborates with the text-completion oracle (LLM),
the semantic index, the fallback query planner (`advanced_query_planner`,
itself LLM-driven) and the database engine.  These externals appear as
fields of `V7Env`: oracle answers are strings (`none` models a raised
exception), database acceptance is a boolean function of the submitted SQL
text. -/

/-- One table of the cached schema dictionary `db_manager.get_table_schema()`:
the ordered column names and the `referred_table` of each foreign key. -/
structure TableInfo where
  columns : List String
  foreignKeys : List String
deriving DecidableEq

/-- Python `full[t]` / `t in full` on the schema dictionary, modelled as an
association list with unique keys. -/
def lookupTable (full : List (String × TableInfo)) (t : String) : Option TableInfo :=
  (full.find? (fun p => p.1 == t)).map (fun p => p.2)

/-- Python `d[k] = v` on a dict that is only ever filled from `full`: adding
a key that is already present leaves the dictionary unchanged. -/
def insertTable (acc : List (String × TableInfo)) (t : String) (i : TableInfo) :
    List (String × TableInfo) :=
  if acc.any (fun p => p.1 == t) then acc else acc ++ [(t, i)]

/-- Whether `t` is a key of the accumulated schema dictionary. -/
def keyMem (acc : List (String × TableInfo)) (t : String) : Bool :=
  acc.any (fun p => p.1 == t)

/-- First phase of `_get_comprehensive_schema_context`: add every seed table
that exists in the full schema. -/
def addPrimary (full : List (String × TableInfo)) (seed : List String) :
    List (String × TableInfo) :=
  seed.foldl
    (fun acc t =>
      match lookupTable full t with
      | some i => insertTable acc t i
      | none => acc)
    []

/-- Second phase, for one seed table `t` present in the full schema: add the
tables referenced by its foreign keys (when they exist in the full schema)
and every table holding a foreign key that refers to `t`. -/
def addNeighborsFor (full : List (String × TableInfo)) (t : String)
    (acc : List (String × TableInfo)) : List (String × TableInfo) :=
  match lookupTable full t with
  | none => acc
  | some i =>
    let acc1 := i.foreignKeys.foldl
      (fun a r =>
        match lookupTable full r with
        | some ri => insertTable a r ri
        | none => a)
      acc
    full.foldl
      (fun a p => if p.2.foreignKeys.contains t then insertTable a p.1 p.2 else a)
      acc1

/-- `EnterpriseSQLAgent._get_comprehensive_schema_context`, after the seed
table set has been read off the semantic-search hits: primary tables first,
then one hop of foreign-key neighbors of each seed table, in both
directions.  The seed list stands for the Python set `relevant_tables`;
duplicate entries are harmless because dictionary insertion is
idempotent here. -/
def closureSchema (seed : List String) (full : List (String × TableInfo)) :
    List (String × TableInfo) :=
  seed.foldl (fun acc t => addNeighborsFor full t acc) (addPrimary full seed)

/-- Parsing step of `EnterpriseSQLAgent._predict_required_tables`: strip
the oracle answer, split it on commas, strip each piece and drop empties. -/
def predictParsed (r : String) : List String :=
  ((splitComma (pyStrip r)).map pyStrip).filter (fun t => t ≠ "")

/-- `EnterpriseSQLAgent._predict_required_tables`: parse the oracle answer
and keep only names that are tables of the relevant schema.  `none` models
an exception inside the `try` block, whose handler returns the full
relevant table list. -/
def predictRequiredTables (resp : Option String) (schema : List (String × TableInfo)) :
    List String :=
  match resp with
  | none => schema.map (fun p => p.1)
  | some r => (predictParsed r).filter (fun t => keyMem schema t)

/-- Result of `_check_pre_generation_authorization`. -/
structure PreAuth where
  authorized : Bool
  message : String
deriving DecidableEq

/-- The `unauthorized_objects` list built by
`_check_pre_generation_authorization`: for each required table, either the
table itself when `check_table_access` fails (the loop then `continue`s),
or the failing ones among the first five columns of that table.  The quote
characters that the Python f-strings put around the object names are left
out of the modelled messages. -/
def collectUnauthorized (p : Permissions) (required : List String)
    (schema : List (String × TableInfo)) : List String :=
  required.foldr
    (fun t acc =>
      if check_table_access t p then
        ((((lookupTable schema t).map TableInfo.columns).getD []).take 5
            |>.filter (fun c => !check_column_access t c p)
            |>.map (fun c => "column " ++ t ++ "." ++ c)) ++ acc
      else ("table " ++ t) :: acc)
    []

/-- `EnterpriseSQLAgent._check_pre_generation_authorization` (Layer 1):
deny when unauthenticated, when no required table was identified, or when
`unauthorized_objects` is nonempty. -/
def checkPreGenAuth (user : Option Permissions) (resp : Option String)
    (schema : List (String × TableInfo)) : PreAuth :=
  match user with
  | none => ⟨false, "User not authenticated"⟩
  | some p =>
    let required := predictRequiredTables resp schema
    if required.isEmpty then ⟨false, "No tables identified for this query"⟩
    else
      let unauth := collectUnauthorized p required schema
      if unauth.isEmpty then
        ⟨true, "Access granted to required tables: " ++ joinSep (", ") required⟩
      else ⟨false, "Missing permissions for: " ++ joinSep (", ") (unauth.take 3)⟩

/-- `re.sub(marker + r'\s*', '', s)` for a literal marker: delete every
occurrence of the marker together with the whitespace run after it,
scanning left to right. -/
def removeMarkerWs (marker : List Char) : Nat → List Char → List Char
  | 0, s => s
  | fuel + 1, s =>
    match s with
    | [] => []
    | c :: rest =>
      if prefixChars marker s then
        let after := s.drop marker.length
        removeMarkerWs marker fuel (after.drop (wsRunLen after))
      else c :: removeMarkerWs marker fuel rest

/-- `EnterpriseSQLAgent._clean_sql`: drop markdown fences, collapse
whitespace, strip trailing semicolons, and return `""` unless the result
starts with `SELECT` (case-insensitively). -/
def cleanSql (sql : String) : String :=
  if sql = "" then ""
  else
    let l := sql.toList
    let l := removeMarkerWs ("```sql".toList) (l.length + 1) l
    let l := removeMarkerWs ("```".toList) (l.length + 1) l
    let s := normalizeWs (String.mk l)
    let s := rstripSemis s
    if prefixChars ("SELECT".toList) (upperStr s).toList then s else ""

/-- Outcome dictionary of `_validate_sql_enhanced`
(`{valid, error, confidence}`; a Python `None` error is modelled as `""`). -/
structure ValidationOutcome where
  valid : Bool
  error : String
  confidence : Rat
deriving DecidableEq

/-- The denylist of `_validate_sql_enhanced`.  Note that it has six entries:
`TRUNCATE` is absent (the V2 validator below checks all seven verbs). -/
def dangerousV7 : List String :=
  ["DROP", "DELETE", "UPDATE", "INSERT", "ALTER", "CREATE"]

/-- `EnterpriseSQLAgent._validate_sql_enhanced`: structural checks, the
denylist scan over the uppercased text, then a dry run against the engine
with `LIMIT 1` appended when no limiting clause is present.  The second
component records the dry-run statement submitted to the database, if any;
`dryRunOk` is the engine verdict. -/
def validateSqlEnhanced (dryRunOk : String → Bool) (sql : String) :
    ValidationOutcome × Option String :=
  if sql = "" then (⟨false, "Empty SQL query", 0⟩, none)
  else
    let sqlUpper := upperStr sql
    if !prefixChars ("SELECT".toList) sqlUpper.toList then
      (⟨false, "Query must start with SELECT", 0⟩, none)
    else if sql.toList.count '(' ≠ sql.toList.count ')' then
      (⟨false, "Unbalanced parentheses", 0⟩, none)
    else
      match dangerousV7.find? (fun pat => containsSub sqlUpper pat) with
      | some pat => (⟨false, "Dangerous operation: " ++ pat, 0⟩, none)
      | none =>
        let sqlClean := rstripSemis sql
        let sqlUpper2 := upperStr sqlClean
        let testSql :=
          if !containsSub sqlUpper2 ("LIMIT") && !containsSub sqlUpper2 ("TOP") then
            sqlClean ++ " LIMIT 1"
          else sqlClean
        if dryRunOk testSql then (⟨true, "", 0.9⟩, some testSql)
        else (⟨false, "Database error: db error", 0.2⟩, some testSql)

/-- Which database connection `_execute_with_user_connection` used:
the shared privileged connection of `db_manager.execute_query`, or a
connection opened with the principal's own credentials. -/
inductive ConnKind
  | admin
  | user
deriving DecidableEq

/-- The external collaborators and request-fixed inputs of one
`EnterpriseSQLAgent.process_query` run. -/
structure V7Env where
  /-- `jwt_manager.get_current_user()` permissions, `none` when logged out. -/
  currentUser : Option Permissions
  /-- `current_user["username"]`. -/
  username : String
  /-- Whether `username in users_data` (the `users.json` store). -/
  userKnown : Bool
  /-- Whether `users_data[username]["db_password"]` is present and truthy. -/
  hasDbPassword : Bool
  /-- Table names read off the semantic-search hits (`relevant_tables`). -/
  semanticTables : List String
  /-- The cached `db_manager.get_table_schema()` dictionary. -/
  fullSchema : List (String × TableInfo)
  /-- Oracle answer of `_predict_required_tables`; `none` models a raised
  exception there. -/
  predictResp : Option String
  /-- Oracle answer of `_enhanced_sql_generation` before `_clean_sql`;
  `none` models a raised exception (the method then returns `""`). -/
  genResp : Option String
  /-- Output of the fallback `advanced_query_planner` generation, an
  LLM-driven collaborator modelled as an opaque answer. -/
  plannerSql : String
  /-- Oracle answer of `_refine_sql` before `_clean_sql`; `none` models a
  raised exception (the method then returns `""`). -/
  refineResp : Option String
  /-- Whether `db_manager.execute_query` accepts the dry-run statement. -/
  dryRunOk : String → Bool
  /-- Whether execution over the user-scoped connection succeeds. -/
  userExecOk : String → Bool
  /-- Whether execution over the shared admin connection succeeds. -/
  adminExecOk : String → Bool
  /-- `settings.max_query_results` (10000 in `V7/config/settings.py`). -/
  maxQueryResults : Nat

/-- Outcome of `_execute_with_user_connection`: the raised error text if
any, the connection actually used for the database call (with the submitted
SQL), and whether the no-db-password fallback warning was logged. -/
structure ExecOutcome where
  errMsg : Option String
  dbCall : Option (ConnKind × String)
  warning : Bool
deriving DecidableEq

/-- `EnterpriseSQLAgent._execute_with_user_connection`: resolve the
principal, and when no per-user database password is stored, log a warning
and fall back to the shared admin connection (`db_manager.execute_query`);
otherwise run over a connection opened with the user credentials.  Raised
exceptions are re-raised as `Layer 3 authorization failed: ...`; engine
error details are abstracted as `db error`. -/
def executeWithUserConnection (env : V7Env) (sql : String) : ExecOutcome :=
  match env.currentUser with
  | none => ⟨some ("Layer 3 authorization failed: User not authenticated"), none, false⟩
  | some _ =>
    if !env.userKnown then
      ⟨some ("Layer 3 authorization failed: User " ++ env.username ++ " not found"),
        none, false⟩
    else if !env.hasDbPassword then
      if env.adminExecOk sql then ⟨none, some (ConnKind.admin, sql), true⟩
      else ⟨some ("Layer 3 authorization failed: db error"), some (ConnKind.admin, sql), true⟩
    else
      if env.userExecOk sql then ⟨none, some (ConnKind.user, sql), false⟩
      else
        ⟨some ("Layer 3 authorization failed: Database access denied for user "
            ++ env.username ++ ": db error"),
          some (ConnKind.user, sql), false⟩

/-- Outcome of `_execute_sql_safely`: whether a data frame came back, the
`error` field of its result dictionary, and the Layer-3 call details. -/
structure ExecResult where
  hasData : Bool
  error : String
  dbCall : Option (ConnKind × String)
  warning : Bool
deriving DecidableEq

/-- `EnterpriseSQLAgent._execute_sql_safely`: append
`LIMIT min(settings.max_query_results, 5000)` when no limiting clause is
present, then run Layer-3 execution; an exception becomes the
`Database access denied: ...` error of the result. -/
def executeSqlSafely (env : V7Env) (sql : String) : ExecResult :=
  let sqlUpper := upperStr sql
  let sql1 := rstripSemis sql
  let sql2 :=
    if !containsSub sqlUpper ("LIMIT") && !containsSub sqlUpper ("TOP") then
      sql1 ++ " LIMIT " ++ toString (min env.maxQueryResults 5000)
    else sql1
  let o := executeWithUserConnection env sql2
  match o.errMsg with
  | none => ⟨true, "", o.dbCall, o.warning⟩
  | some e => ⟨false, "Database access denied: " ++ e, o.dbCall, o.warning⟩

/-- The fields of the dictionary `process_query` returns that the claims
speak about (`execution_result is not None` is `hasData`). -/
structure V7Result where
  user_query : String
  generated_sql : String
  error_message : String
  confidence_score : Rat
  hasData : Bool
deriving DecidableEq

/-- `EnterpriseSQLAgent._create_error_result`. -/
def mkErrorResult (q msg : String) : V7Result := ⟨q, "", msg, 0, false⟩

/-- Instrumentation of one `process_query` run: which collaborators were
invoked and with what SQL. -/
structure V7Trace where
  genCalled : Bool
  plannerCalled : Bool
  refineCalled : Bool
  layer2Checked : List String
  validateCalled : List String
  dryRuns : List String
  executedSql : Option String
  connUsed : Option ConnKind
  adminFallbackWarning : Bool
deriving DecidableEq

/-- The candidate produced by `_enhanced_sql_generation`. -/
def v7GenSql (env : V7Env) : String :=
  match env.genResp with
  | none => ""
  | some r => cleanSql r

/-- The candidate entering Layer-2 authorization: the enhanced generation
output, or the planner fallback when that output is empty. -/
def v7InitialSql (env : V7Env) : String :=
  if v7GenSql env = "" then env.plannerSql else v7GenSql env

/-- The candidate produced by `_refine_sql`. -/
def v7RefinedSql (env : V7Env) : String :=
  match env.refineResp with
  | none => ""
  | some r => cleanSql r

/-- The relevant schema context of the run. -/
def v7Relevant (env : V7Env) : List (String × TableInfo) :=
  closureSchema env.semanticTables env.fullSchema

/-- The Layer-1 decision of the run. -/
def v7PreAuth (env : V7Env) : PreAuth :=
  checkPreGenAuth env.currentUser env.predictResp (v7Relevant env)

/-- `auth_middleware.check_query_authorization`: resolve the current user
and delegate to `authorize_sql_query` (V5 `AuthorizationManager`, which V7
imports). -/
def checkQueryAuthorization (user : Option Permissions) (sql : String) : Bool × String :=
  match user with
  | none => (false, "User not authenticated")
  | some p => authorize_sql_query sql p

/-- Shared tail of `process_query`: step 4 executes the current candidate
and step 5 assembles the result dictionary.  Note that the source reaches
this point unconditionally, whether or not the last validation outcome was
valid. -/
def v7Finish (env : V7Env) (q sql : String) (v : ValidationOutcome)
    (plannerCalled refineCalled : Bool) (l2 vc dr : List String) : V7Result × V7Trace :=
  let ex := executeSqlSafely env sql
  (⟨q, sql, ex.error, v.confidence, ex.hasData⟩,
    ⟨true, plannerCalled, refineCalled, l2, vc, dr,
      ex.dbCall.map (fun c => c.2), ex.dbCall.map (fun c => c.1), ex.warning⟩)

/-- `EnterpriseSQLAgent.process_query`: schema context, Layer-1
authorization, generation (with planner fallback), Layer-2 authorization,
validation, one refinement attempt on validation failure (re-authorized and
re-validated when nonempty), then execution and result assembly. -/
def v7Process (env : V7Env) (q : String) : V7Result × V7Trace :=
  if !(v7PreAuth env).authorized then
    (mkErrorResult q ("Access denied: " ++ (v7PreAuth env).message),
      ⟨false, false, false, [], [], [], none, none, false⟩)
  else
    let plannerCalled := decide (v7GenSql env = "")
    let gsql := v7InitialSql env
    if gsql = "" then
      (mkErrorResult q ("Failed to generate SQL query"),
        ⟨true, true, false, [], [], [], none, none, false⟩)
    else
      let a1 := checkQueryAuthorization env.currentUser gsql
      if !a1.1 then
        (mkErrorResult q ("Access denied: " ++ a1.2),
          ⟨true, plannerCalled, false, [gsql], [], [], none, none, false⟩)
      else
        let vr1 := validateSqlEnhanced env.dryRunOk gsql
        if vr1.1.valid then
          v7Finish env q gsql vr1.1 plannerCalled false [gsql] [gsql] vr1.2.toList
        else
          let rsql := v7RefinedSql env
          if rsql = "" then
            v7Finish env q gsql vr1.1 plannerCalled true [gsql] [gsql] vr1.2.toList
          else
            let a2 := checkQueryAuthorization env.currentUser rsql
            if !a2.1 then
              (mkErrorResult q ("Access denied: " ++ a2.2),
                ⟨true, plannerCalled, true, [gsql, rsql], [gsql], vr1.2.toList, none, none, false⟩)
            else
              let vr2 := validateSqlEnhanced env.dryRunOk rsql
              v7Finish env q rsql vr2.1 plannerCalled true [gsql, rsql] [gsql, rsql]
                (vr1.2.toList ++ vr2.2.toList)

/-! ### Branch characterizations of `v7Process` (shared helper lemmas) -/

theorem v7Process_preAuthFail (env : V7Env) (q : String)
    (h0 : (v7PreAuth env).authorized = false) :
    v7Process env q =
      (mkErrorResult q ("Access denied: " ++ (v7PreAuth env).message),
        ⟨false, false, false, [], [], [], none, none, false⟩) := by
  simp [v7Process, h0]

theorem v7Process_genFail (env : V7Env) (q : String)
    (h0 : (v7PreAuth env).authorized = true) (h1 : v7InitialSql env = "") :
    v7Process env q =
      (mkErrorResult q ("Failed to generate SQL query"),
        ⟨true, true, false, [], [], [], none, none, false⟩) := by
  simp [v7Process, h0, h1]

theorem v7Process_authDenied (env : V7Env) (q : String)
    (h0 : (v7PreAuth env).authorized = true) (h1 : v7InitialSql env ≠ "")
    (h2 : (checkQueryAuthorization env.currentUser (v7InitialSql env)).1 = false) :
    v7Process env q =
      (mkErrorResult q
          ("Access denied: " ++ (checkQueryAuthorization env.currentUser (v7InitialSql env)).2),
        ⟨true, decide (v7GenSql env = ""), false, [v7InitialSql env], [], [],
          none, none, false⟩) := by
  simp [v7Process, h0, h1, h2]

theorem v7Process_validOk (env : V7Env) (q : String)
    (h0 : (v7PreAuth env).authorized = true) (h1 : v7InitialSql env ≠ "")
    (h2 : (checkQueryAuthorization env.currentUser (v7InitialSql env)).1 = true)
    (h3 : (validateSqlEnhanced env.dryRunOk (v7InitialSql env)).1.valid = true) :
    v7Process env q =
      v7Finish env q (v7InitialSql env) (validateSqlEnhanced env.dryRunOk (v7InitialSql env)).1
        (decide (v7GenSql env = "")) false [v7InitialSql env] [v7InitialSql env]
        (validateSqlEnhanced env.dryRunOk (v7InitialSql env)).2.toList := by
  simp [v7Process, h0, h1, h2, h3]

theorem v7Process_invalidNoRefined (env : V7Env) (q : String)
    (h0 : (v7PreAuth env).authorized = true) (h1 : v7InitialSql env ≠ "")
    (h2 : (checkQueryAuthorization env.currentUser (v7InitialSql env)).1 = true)
    (h3 : (validateSqlEnhanced env.dryRunOk (v7InitialSql env)).1.valid = false)
    (h4 : v7RefinedSql env = "") :
    v7Process env q =
      v7Finish env q (v7InitialSql env) (validateSqlEnhanced env.dryRunOk (v7InitialSql env)).1
        (decide (v7GenSql env = "")) true [v7InitialSql env] [v7InitialSql env]
        (validateSqlEnhanced env.dryRunOk (v7InitialSql env)).2.toList := by
  simp [v7Process, h0, h1, h2, h3, h4]

theorem v7Process_refinedAuthDenied (env : V7Env) (q : String)
    (h0 : (v7PreAuth env).authorized = true) (h1 : v7InitialSql env ≠ "")
    (h2 : (checkQueryAuthorization env.currentUser (v7InitialSql env)).1 = true)
    (h3 : (validateSqlEnhanced env.dryRunOk (v7InitialSql env)).1.valid = false)
    (h4 : v7RefinedSql env ≠ "")
    (h5 : (checkQueryAuthorization env.currentUser (v7RefinedSql env)).1 = false) :
    v7Process env q =
      (mkErrorResult q
          ("Access denied: " ++ (checkQueryAuthorization env.currentUser (v7RefinedSql env)).2),
        ⟨true, decide (v7GenSql env = ""), true, [v7InitialSql env, v7RefinedSql env],
          [v7InitialSql env],
          (validateSqlEnhanced env.dryRunOk (v7InitialSql env)).2.toList,
          none, none, false⟩) := by
  simp [v7Process, h0, h1, h2, h3, h4, h5]

theorem v7Process_refinedAuthOk (env : V7Env) (q : String)
    (h0 : (v7PreAuth env).authorized = true) (h1 : v7InitialSql env ≠ "")
    (h2 : (checkQueryAuthorization env.currentUser (v7InitialSql env)).1 = true)
    (h3 : (validateSqlEnhanced env.dryRunOk (v7InitialSql env)).1.valid = false)
    (h4 : v7RefinedSql env ≠ "")
    (h5 : (checkQueryAuthorization env.currentUser (v7RefinedSql env)).1 = true) :
    v7Process env q =
      v7Finish env q (v7RefinedSql env) (validateSqlEnhanced env.dryRunOk (v7RefinedSql env)).1
        (decide (v7GenSql env = "")) true [v7InitialSql env, v7RefinedSql env]
        [v7InitialSql env, v7RefinedSql env]
        ((validateSqlEnhanced env.dryRunOk (v7InitialSql env)).2.toList
          ++ (validateSqlEnhanced env.dryRunOk (v7RefinedSql env)).2.toList) := by
  simp [v7Process, h0, h1, h2, h3, h4, h5]

/-! ### Claims C1 and C5 -/

/-- Scenario C of the specification run against the V7 agent: an
authenticated wildcard principal, the schema table `orders`, a generated
candidate containing `DROP`, a refinement answer with no SQL in it, and an
engine that accepts whatever it is sent. -/
def envC1 : V7Env :=
  { currentUser := some ⟨["*"], ["*"], ["*"]⟩
    username := "alice"
    userKnown := true
    hasDbPassword := true
    semanticTables := ["orders"]
    fullSchema := [("orders", ⟨["order_id", "total_amount"], []⟩)]
    predictResp := some ("orders")
    genResp := some ("SELECT * FROM orders; DROP TABLE orders;")
    plannerSql := ""
    refineResp := some ("I am unable to repair this query.")
    dryRunOk := fun _ => true
    userExecOk := fun _ => true
    adminExecOk := fun _ => true
    maxQueryResults := 10000 }

/-- C1.  The V7 validator does fail the `DROP`-carrying candidate of
Scenario C, but `process_query` executes that same candidate against the
database anyway (Step 4 runs unconditionally after a failed validation and
an SQL-free refinement answer), and the V7 denylist misses `TRUNCATE`
entirely: a `TRUNCATE`-carrying `SELECT` validates successfully. -/
theorem v7_executes_denylisted_statement :
    (validateSqlEnhanced (fun _ => true) ("SELECT * FROM orders; DROP TABLE orders")).1
      = ⟨false, "Dangerous operation: DROP", 0⟩
    ∧ (v7Process envC1 ("show orders")).1.generated_sql
        = "SELECT * FROM orders; DROP TABLE orders"
    ∧ (v7Process envC1 ("show orders")).2.executedSql
        = some ("SELECT * FROM orders; DROP TABLE orders LIMIT 5000")
    ∧ (validateSqlEnhanced (fun _ => true)
        ("SELECT * FROM orders; TRUNCATE TABLE orders")).1.valid = true := by
  decide

/-- C5.  The run of `envC1` comes back as a success — empty
`error_message`, a data frame present — although its `generated_sql`
contains the denylisted token `DROP` and failed validation. -/
theorem v7_success_result_carries_denylisted_sql :
    (v7Process envC1 ("show orders")).1.error_message = ""
    ∧ (v7Process envC1 ("show orders")).1.hasData = true
    ∧ containsSub (upperStr (v7Process envC1 ("show orders")).1.generated_sql) ("DROP")
        = true
    ∧ (validateSqlEnhanced envC1.dryRunOk
        (v7InitialSql envC1)).1.valid = false := by
  decide

/-! ### Claim C6 -/

/-- A principal whose record has no stored database password. -/
def envC6 : V7Env :=
  { currentUser := some ⟨["*"], ["orders"], ["*"]⟩
    username := "bob"
    userKnown := true
    hasDbPassword := false
    semanticTables := ["orders"]
    fullSchema := [("orders", ⟨["order_id", "total_amount"], []⟩)]
    predictResp := some ("orders")
    genResp := some ("SELECT * FROM orders LIMIT 10")
    plannerSql := ""
    refineResp := none
    dryRunOk := fun _ => true
    userExecOk := fun _ => true
    adminExecOk := fun _ => true
    maxQueryResults := 10000 }

/-- C6 counterexample.  With no per-principal database credential, Layer 3
runs the query over the shared privileged connection straight away: the
model has no configuration input at all, so the fallback is the default
behaviour, not an externally configured policy. -/
theorem v7_no_credential_counterexample :
    (executeWithUserConnection envC6 ("SELECT * FROM orders LIMIT 10")).dbCall
      = some (ConnKind.admin, "SELECT * FROM orders LIMIT 10") := by
  decide

/-- C6 amended.  Whenever the principal is authenticated and known but has
no stored database password, `_execute_with_user_connection`
unconditionally falls back to the shared admin connection, logging a
warning; no configuration gate exists in the code. -/
theorem v7_no_credential_admin_fallback (env : V7Env) (sql : String)
    (hu : env.currentUser.isSome = true) (hk : env.userKnown = true)
    (hp : env.hasDbPassword = false) :
    (executeWithUserConnection env sql).dbCall = some (ConnKind.admin, sql)
    ∧ (executeWithUserConnection env sql).warning = true := by
  cases hcu : env.currentUser with
  | none => rw [hcu] at hu; simp at hu
  | some p =>
    unfold executeWithUserConnection
    rw [hcu, hk, hp]
    by_cases ha : env.adminExecOk sql <;> simp [ha]

/-- Witness for the amended C6 theorem at `envC6`. -/
theorem v7_no_credential_admin_fallback_witness :
    (executeWithUserConnection envC6 ("SELECT 1")).dbCall
      = some (ConnKind.admin, "SELECT 1")
    ∧ (executeWithUserConnection envC6 ("SELECT 1")).warning = true :=
  v7_no_credential_admin_fallback envC6 ("SELECT 1") (by decide) (by decide) (by decide)

/-! ### Claim C4 -/

/-- The first five columns that `_check_pre_generation_authorization` checks
for a required table. -/
def firstFiveColumns (schema : List (String × TableInfo)) (t : String) : List String :=
  (((lookupTable schema t).map TableInfo.columns).getD []).take 5

theorem collectUnauthorized_cons (p : Permissions) (t : String) (rest : List String)
    (schema : List (String × TableInfo)) :
    collectUnauthorized p (t :: rest) schema =
      (if check_table_access t p then
        ((firstFiveColumns schema t).filter (fun c => !check_column_access t c p)).map
          (fun c => "column " ++ t ++ "." ++ c) ++ collectUnauthorized p rest schema
      else ("table " ++ t) :: collectUnauthorized p rest schema) := by
  simp [collectUnauthorized, firstFiveColumns, List.foldr]

theorem collectUnauthorized_ne_nil (p : Permissions) (required : List String)
    (schema : List (String × TableInfo))
    (hbad : ∃ t ∈ required,
      check_table_access t p = false ∨
        ∃ c ∈ firstFiveColumns schema t, check_column_access t c p = false) :
    collectUnauthorized p required schema ≠ [] := by
  induction required with
  | nil => rcases hbad with ⟨t, ht, _⟩; cases ht
  | cons t rest ih =>
    rcases hbad with ⟨u, hu, hbadu⟩
    rw [collectUnauthorized_cons]
    rcases List.mem_cons.mp hu with rfl | hmem
    · rcases hbadu with htab | ⟨c, hc, hcol⟩
      · rw [htab]; simp
      · by_cases htab : check_table_access u p
        · simp only [htab, if_true]
          intro hnil
          rcases List.append_eq_nil.mp hnil with ⟨hmap, _⟩
          have : c ∈ (firstFiveColumns schema u).filter (fun c => !check_column_access u c p) :=
            List.mem_filter.mpr ⟨hc, by rw [hcol]; rfl⟩
          rw [List.map_eq_nil_iff] at hmap
          rw [hmap] at this
          cases this
        · simp [htab]
    · have hrest : collectUnauthorized p rest schema ≠ [] := ih ⟨u, hmem, hbadu⟩
      by_cases htab : check_table_access t p
      · simp only [htab, if_true]
        intro hnil
        exact hrest (List.append_eq_nil.mp hnil).2
      · simp [htab]

/-- C4.  When the predicted required-table set is nonempty and some required
table fails `check_table_access`, or one of the first five columns of a
required table fails `check_column_access`, `process_query` returns the
access-denied error result — empty SQL, confidence `0`, an
`Access denied: ...` message — without ever invoking the generation oracle,
the validator dry run, or the execution layer. -/
theorem v7_layer1_denial_blocks_generation (env : V7Env) (q : String) (p : Permissions)
    (hu : env.currentUser = some p)
    (hne : predictRequiredTables env.predictResp (v7Relevant env) ≠ [])
    (hbad : ∃ t ∈ predictRequiredTables env.predictResp (v7Relevant env),
      check_table_access t p = false ∨
        ∃ c ∈ firstFiveColumns (v7Relevant env) t, check_column_access t c p = false) :
    (v7Process env q).1.generated_sql = ""
    ∧ (v7Process env q).1.confidence_score = 0
    ∧ (∃ m, (v7Process env q).1.error_message = "Access denied: " ++ m)
    ∧ (v7Process env q).2.genCalled = false
    ∧ (v7Process env q).2.dryRuns = []
    ∧ (v7Process env q).2.executedSql = none := by
  have hauth : (v7PreAuth env).authorized = false := by
    unfold v7PreAuth checkPreGenAuth
    rw [hu]
    have h1 : (predictRequiredTables env.predictResp (v7Relevant env)).isEmpty = false := by
      cases hreq : predictRequiredTables env.predictResp (v7Relevant env) with
      | nil => exact absurd hreq hne
      | cons a l => rfl
    have h2 : (collectUnauthorized p (predictRequiredTables env.predictResp (v7Relevant env))
        (v7Relevant env)).isEmpty = false := by
      cases hcol : collectUnauthorized p (predictRequiredTables env.predictResp (v7Relevant env))
          (v7Relevant env) with
      | nil => exact absurd hcol (collectUnauthorized_ne_nil p _ _ hbad)
      | cons a l => rfl
    simp [h1, h2]
  rw [v7Process_preAuthFail env q hauth]
  exact ⟨rfl, rfl, ⟨(v7PreAuth env).message, rfl⟩, rfl, rfl, rfl⟩

/-- A principal authorized only for `customers` while the query requires
`orders`. -/
def envC4 : V7Env :=
  { currentUser := some ⟨["*"], ["customers"], ["*"]⟩
    username := "carol"
    userKnown := true
    hasDbPassword := true
    semanticTables := ["orders"]
    fullSchema := [("orders", ⟨["order_id", "total_amount"], []⟩)]
    predictResp := some ("orders")
    genResp := some ("SELECT * FROM orders")
    plannerSql := ""
    refineResp := none
    dryRunOk := fun _ => true
    userExecOk := fun _ => true
    adminExecOk := fun _ => true
    maxQueryResults := 10000 }

/-- Witness for C4 at `envC4`: the required table `orders` lacks
`check_table_access`, generation is never reached. -/
theorem v7_layer1_denial_blocks_generation_witness :
    (v7Process envC4 ("show orders")).1.generated_sql = ""
    ∧ (v7Process envC4 ("show orders")).1.confidence_score = 0
    ∧ (∃ m, (v7Process envC4 ("show orders")).1.error_message = "Access denied: " ++ m)
    ∧ (v7Process envC4 ("show orders")).2.genCalled = false
    ∧ (v7Process envC4 ("show orders")).2.dryRuns = []
    ∧ (v7Process envC4 ("show orders")).2.executedSql = none :=
  v7_layer1_denial_blocks_generation envC4 ("show orders") ⟨["*"], ["customers"], ["*"]⟩
    (by decide) (by decide)
    ⟨"orders", by decide, Or.inl (by decide)⟩

/-! ### Claim C3 -/

/-- C3.  Layer-2 authorization is terminal and refinement is correctness
only: (1) when Layer 2 denies the initial candidate, `process_query`
returns the access-denied error result without refining, validating or
executing anything; (2) refinement is ever entered only after the initial
candidate failed validation; (3) a nonempty refined candidate is submitted
to Layer-2 authorization, and when that authorization denies it the run
ends in the access-denied error result with the refined candidate never
validated and nothing executed. -/
theorem v7_layer2_denial_terminal_refine_reauthorized (env : V7Env) (q : String) :
    ((v7PreAuth env).authorized = true → v7InitialSql env ≠ "" →
      (checkQueryAuthorization env.currentUser (v7InitialSql env)).1 = false →
        (v7Process env q).1 =
            mkErrorResult q
              ("Access denied: "
                ++ (checkQueryAuthorization env.currentUser (v7InitialSql env)).2)
          ∧ (v7Process env q).2.refineCalled = false
          ∧ (v7Process env q).2.dryRuns = []
          ∧ (v7Process env q).2.executedSql = none)
    ∧ ((v7Process env q).2.refineCalled = true →
        (validateSqlEnhanced env.dryRunOk (v7InitialSql env)).1.valid = false)
    ∧ (v7RefinedSql env ≠ "" →
      (checkQueryAuthorization env.currentUser (v7RefinedSql env)).1 = false →
      (v7Process env q).2.refineCalled = true →
        v7RefinedSql env ∈ (v7Process env q).2.layer2Checked
        ∧ v7RefinedSql env ∉ (v7Process env q).2.validateCalled
        ∧ (v7Process env q).2.executedSql = none
        ∧ (v7Process env q).1 =
            mkErrorResult q
              ("Access denied: "
                ++ (checkQueryAuthorization env.currentUser (v7RefinedSql env)).2)) := by
  refine ⟨?_, ?_, ?_⟩
  · intro h0 h1 h2
    rw [v7Process_authDenied env q h0 h1 h2]
    exact ⟨rfl, rfl, rfl, rfl⟩
  · intro hrc
    by_cases h0 : (v7PreAuth env).authorized
    · by_cases h1 : v7InitialSql env = ""
      · rw [v7Process_genFail env q h0 h1] at hrc; cases hrc
      · by_cases h2 : (checkQueryAuthorization env.currentUser (v7InitialSql env)).1
        · by_cases h3 : (validateSqlEnhanced env.dryRunOk (v7InitialSql env)).1.valid
          · rw [v7Process_validOk env q h0 h1 h2 h3] at hrc
            simp [v7Finish] at hrc
          · exact Bool.eq_false_iff.mpr h3
        · rw [v7Process_authDenied env q h0 h1 (Bool.eq_false_iff.mpr h2)] at hrc
          cases hrc
    · rw [v7Process_preAuthFail env q (Bool.eq_false_iff.mpr h0)] at hrc
      cases hrc
  · intro h4 h5 hrc
    by_cases h0 : (v7PreAuth env).authorized
    · by_cases h1 : v7InitialSql env = ""
      · rw [v7Process_genFail env q h0 h1] at hrc; cases hrc
      · by_cases h2 : (checkQueryAuthorization env.currentUser (v7InitialSql env)).1
        · by_cases h3 : (validateSqlEnhanced env.dryRunOk (v7InitialSql env)).1.valid
          · rw [v7Process_validOk env q h0 h1 h2 h3] at hrc
            simp [v7Finish] at hrc
          · have h3f := Bool.eq_false_iff.mpr h3
            rw [v7Process_refinedAuthDenied env q h0 h1 h2 h3f h4 h5]
            refine ⟨by simp, ?_, rfl, rfl⟩
            have hne : v7RefinedSql env ≠ v7InitialSql env := by
              intro heq
              rw [heq, h2] at h5
              cases h5
            simp [hne]
        · rw [v7Process_authDenied env q h0 h1 (Bool.eq_false_iff.mpr h2)] at hrc
          cases hrc
    · rw [v7Process_preAuthFail env q (Bool.eq_false_iff.mpr h0)] at hrc
      cases hrc

/-- A run in which Layer 2 denies the initial candidate: the principal may
read `orders` only, while the generated SQL references `customers`. -/
def envC3 : V7Env :=
  { currentUser := some ⟨["*"], ["orders"], ["*"]⟩
    username := "dave"
    userKnown := true
    hasDbPassword := true
    semanticTables := ["orders"]
    fullSchema := [("orders", ⟨["order_id", "total_amount"], []⟩),
                   ("customers", ⟨["customer_id", "customer_name"], []⟩)]
    predictResp := some ("orders")
    genResp := some ("SELECT customer_name FROM customers")
    plannerSql := ""
    refineResp := none
    dryRunOk := fun _ => true
    userExecOk := fun _ => true
    adminExecOk := fun _ => true
    maxQueryResults := 10000 }

/-- Witness for C3 at `envC3`: Layer 2 denies the candidate referencing
`customers` and the run terminates without refinement, validation or
execution. -/
theorem v7_layer2_denial_terminal_witness :
    (v7Process envC3 ("list customers")).1 =
        mkErrorResult ("list customers")
          ("Access denied: "
            ++ (checkQueryAuthorization envC3.currentUser (v7InitialSql envC3)).2)
    ∧ (v7Process envC3 ("list customers")).2.refineCalled = false
    ∧ (v7Process envC3 ("list customers")).2.dryRuns = []
    ∧ (v7Process envC3 ("list customers")).2.executedSql = none :=
  (v7_layer2_denial_terminal_refine_reauthorized envC3 ("list customers")).1
    (by decide) (by decide) (by decide)

/-! ### Claim C7 -/

/-- A one-table relevant schema used to exercise the predictor. -/
def c7Ctx : List (String × TableInfo) := [("orders", ⟨["order_id", "total_amount"], []⟩)]

/-- C7 counterexample.  An oracle answer that parses to a nonempty but
entirely invalid table set makes `_predict_required_tables` return the
empty list, not the full context table set the claim requires. -/
theorem predictor_no_empty_set_fallback_counterexample :
    predictRequiredTables (some ("customers")) c7Ctx = []
    ∧ c7Ctx.map (fun p => p.1) = ["orders"]
    ∧ (predictRequiredTables (some ("customers")) c7Ctx
        == c7Ctx.map (fun p => p.1)) = false := by
  decide

/-- C7 amended.  The predictor does intersect the parsed oracle answer with
the context tables and discards the rest, and the full-context fallback
does fire when the oracle call raises; but an answer that parses to an
empty or entirely invalid set yields the empty list (no fallback), which
Layer-1 authorization then rejects as `No tables identified for this
query`. -/
theorem predictor_intersects_context (schema : List (String × TableInfo)) :
    (∀ resp, ∀ t ∈ predictRequiredTables resp schema, keyMem schema t = true)
    ∧ predictRequiredTables none schema = schema.map (fun p => p.1)
    ∧ (∀ s, (∀ t ∈ predictParsed s, keyMem schema t = false) →
        predictRequiredTables (some s) schema = [])
    ∧ (∀ p resp, predictRequiredTables resp schema = [] →
        (checkPreGenAuth (some p) resp schema).authorized = false) := by
  refine ⟨?_, rfl, ?_, ?_⟩
  · intro resp t ht
    cases resp with
    | none =>
      unfold predictRequiredTables at ht
      rcases List.mem_map.mp ht with ⟨pr, hpr, rfl⟩
      unfold keyMem
      exact List.any_eq_true.mpr ⟨pr, hpr, by simp⟩
    | some r =>
      unfold predictRequiredTables at ht
      exact (List.mem_filter.mp ht).2
  · intro s hall
    unfold predictRequiredTables
    apply List.filter_eq_nil_iff.mpr
    intro t ht
    rw [hall t ht]
    simp
  · intro p resp hempty
    unfold checkPreGenAuth
    rw [hempty]
    rfl

/-- Witness for the amended C7 theorem: on the context `c7Ctx`, an answer
naming only unknown tables yields the empty list and Layer 1 denies. -/
theorem predictor_intersects_context_witness :
    predictRequiredTables (some ("foo, bar")) c7Ctx = []
    ∧ (checkPreGenAuth (some ⟨["*"], ["*"], ["*"]⟩) (some ("foo, bar")) c7Ctx).authorized
        = false := by
  refine ⟨(predictor_intersects_context c7Ctx).2.2.1 ("foo, bar") (by decide), ?_⟩
  exact (predictor_intersects_context c7Ctx).2.2.2 ⟨["*"], ["*"], ["*"]⟩ (some ("foo, bar"))
    ((predictor_intersects_context c7Ctx).2.2.1 ("foo, bar") (by decide))

/-! ### Claim C8 -/

/-- A directed foreign-key edge of the schema graph: table `a` holds a
foreign key referring to table `b`. -/
def fkEdge (full : List (String × TableInfo)) (a b : String) : Prop :=
  ∃ i, lookupTable full a = some i ∧ b ∈ i.foreignKeys

theorem lookupTable_mem {full : List (String × TableInfo)} {t : String} {i : TableInfo}
    (h : lookupTable full t = some i) : ∃ p ∈ full, p.1 = t ∧ p.2 = i := by
  unfold lookupTable at h
  cases hf : full.find? (fun p => p.1 == t) with
  | none => rw [hf] at h; cases h
  | some pr =>
    rw [hf] at h
    refine ⟨pr, List.mem_of_find?_eq_some hf, ?_, ?_⟩
    · have := List.find?_some hf
      exact eq_of_beq this
    · cases h; rfl

theorem lookupTable_of_mem {full : List (String × TableInfo)}
    (hnodup : (full.map Prod.fst).Nodup) {p : String × TableInfo} (hp : p ∈ full) :
    lookupTable full p.1 = some p.2 := by
  induction full with
  | nil => cases hp
  | cons q rest ih =>
    rw [List.map_cons, List.nodup_cons] at hnodup
    rcases List.mem_cons.mp hp with rfl | hmem
    · unfold lookupTable
      rw [List.find?_cons_of_pos _ (by simp)]
      rfl
    · have hq1 : (q.1 == p.1) = false := by
        rw [beq_eq_false_iff_ne]
        intro h
        exact hnodup.1 (h ▸ List.mem_map.mpr ⟨p, hmem, rfl⟩)
      unfold lookupTable
      rw [List.find?_cons_of_neg _ (by simp [hq1])]
      exact ih hnodup.2 hmem

theorem keyMem_insertTable (acc : List (String × TableInfo)) (t : String) (i : TableInfo)
    (u : String) :
    keyMem (insertTable acc t i) u = true ↔ keyMem acc u = true ∨ u = t := by
  unfold insertTable keyMem
  by_cases h : acc.any (fun p => p.1 == t) = true
  · rw [if_pos h]
    constructor
    · exact Or.inl
    · rintro (hm | rfl)
      · exact hm
      · exact h
  · rw [if_neg h, List.any_append]
    simp only [List.any_cons, List.any_nil, Bool.or_false, Bool.or_eq_true, beq_iff_eq]
    constructor
    · rintro (hm | ht)
      · exact Or.inl hm
      · exact Or.inr ht.symm
    · rintro (hm | rfl)
      · exact Or.inl hm
      · exact Or.inr rfl

theorem keyMem_primaryFold (full : List (String × TableInfo)) (seed : List String)
    (acc : List (String × TableInfo)) (u : String) :
    keyMem (seed.foldl
        (fun acc t =>
          match lookupTable full t with
          | some i => insertTable acc t i
          | none => acc) acc) u = true
      ↔ keyMem acc u = true ∨ (u ∈ seed ∧ (lookupTable full u).isSome = true) := by
  induction seed generalizing acc with
  | nil => simp
  | cons t rest ih =>
    rw [List.foldl_cons, ih]
    cases hlk : lookupTable full t with
    | none =>
      simp only [List.mem_cons]
      constructor
      · rintro (hm | ⟨hmem, hsome⟩)
        · exact Or.inl hm
        · exact Or.inr ⟨Or.inr hmem, hsome⟩
      · rintro (hm | ⟨rfl | hmem, hsome⟩)
        · exact Or.inl hm
        · rw [hlk] at hsome; cases hsome
        · exact Or.inr ⟨hmem, hsome⟩
    | some i =>
      rw [keyMem_insertTable]
      simp only [List.mem_cons]
      constructor
      · rintro ((hm | rfl) | ⟨hmem, hsome⟩)
        · exact Or.inl hm
        · exact Or.inr ⟨Or.inl rfl, by rw [hlk]; rfl⟩
        · exact Or.inr ⟨Or.inr hmem, hsome⟩
      · rintro (hm | ⟨rfl | hmem, hsome⟩)
        · exact Or.inl (Or.inl hm)
        · exact Or.inl (Or.inr rfl)
        · exact Or.inr ⟨hmem, hsome⟩

theorem keyMem_addPrimary (full : List (String × TableInfo)) (seed : List String)
    (u : String) :
    keyMem (addPrimary full seed) u = true
      ↔ u ∈ seed ∧ (lookupTable full u).isSome = true := by
  unfold addPrimary
  rw [keyMem_primaryFold]
  simp [keyMem]

theorem keyMem_fkFold (full : List (String × TableInfo)) (fks : List String)
    (acc : List (String × TableInfo)) (u : String) :
    keyMem (fks.foldl
        (fun a r =>
          match lookupTable full r with
          | some ri => insertTable a r ri
          | none => a) acc) u = true
      ↔ keyMem acc u = true ∨ (u ∈ fks ∧ (lookupTable full u).isSome = true) := by
  induction fks generalizing acc with
  | nil => simp
  | cons r rest ih =>
    rw [List.foldl_cons, ih]
    cases hlk : lookupTable full r with
    | none =>
      simp only [List.mem_cons]
      constructor
      · rintro (hm | ⟨hmem, hsome⟩)
        · exact Or.inl hm
        · exact Or.inr ⟨Or.inr hmem, hsome⟩
      · rintro (hm | ⟨rfl | hmem, hsome⟩)
        · exact Or.inl hm
        · rw [hlk] at hsome; cases hsome
        · exact Or.inr ⟨hmem, hsome⟩
    | some ri =>
      rw [keyMem_insertTable]
      simp only [List.mem_cons]
      constructor
      · rintro ((hm | rfl) | ⟨hmem, hsome⟩)
        · exact Or.inl hm
        · exact Or.inr ⟨Or.inl rfl, by rw [hlk]; rfl⟩
        · exact Or.inr ⟨Or.inr hmem, hsome⟩
      · rintro (hm | ⟨rfl | hmem, hsome⟩)
        · exact Or.inl (Or.inl hm)
        · exact Or.inl (Or.inr rfl)
        · exact Or.inr ⟨hmem, hsome⟩

theorem keyMem_referrerFold (schemaIter : List (String × TableInfo)) (t : String)
    (acc : List (String × TableInfo)) (u : String) :
    keyMem (schemaIter.foldl
        (fun a p => if p.2.foreignKeys.contains t then insertTable a p.1 p.2 else a) acc) u
        = true
      ↔ keyMem acc u = true ∨ ∃ p ∈ schemaIter, p.1 = u ∧ t ∈ p.2.foreignKeys := by
  induction schemaIter generalizing acc with
  | nil => simp
  | cons q rest ih =>
    rw [List.foldl_cons, ih]
    by_cases hq : q.2.foreignKeys.contains t
    · simp only [hq, if_true]
      rw [keyMem_insertTable]
      constructor
      · rintro ((hm | rfl) | ⟨p, hp, hpu, hpt⟩)
        · exact Or.inl hm
        · exact Or.inr ⟨q, List.mem_cons_self q rest, rfl, List.mem_of_elem_eq_true hq⟩
        · exact Or.inr ⟨p, List.mem_cons_of_mem q hp, hpu, hpt⟩
      · rintro (hm | ⟨p, hp, hpu, hpt⟩)
        · exact Or.inl (Or.inl hm)
        · rcases List.mem_cons.mp hp with rfl | hmem
          · exact Or.inl (Or.inr hpu.symm)
          · exact Or.inr ⟨p, hmem, hpu, hpt⟩
    · simp only [hq, if_false]
      constructor
      · rintro (hm | ⟨p, hp, hpu, hpt⟩)
        · exact Or.inl hm
        · exact Or.inr ⟨p, List.mem_cons_of_mem q hp, hpu, hpt⟩
      · rintro (hm | ⟨p, hp, hpu, hpt⟩)
        · exact Or.inl hm
        · rcases List.mem_cons.mp hp with rfl | hmem
          · exact absurd (List.elem_eq_true_of_mem hpt) hq
          · exact Or.inr ⟨p, hmem, hpu, hpt⟩

theorem keyMem_addNeighborsFor (full : List (String × TableInfo)) (t : String)
    (acc : List (String × TableInfo)) (u : String) :
    keyMem (addNeighborsFor full t acc) u = true
      ↔ keyMem acc u = true ∨
          ∃ i, lookupTable full t = some i ∧
            ((u ∈ i.foreignKeys ∧ (lookupTable full u).isSome = true)
              ∨ ∃ p ∈ full, p.1 = u ∧ t ∈ p.2.foreignKeys) := by
  cases hlk : lookupTable full t with
  | none =>
    have hred : addNeighborsFor full t acc = acc := by
      unfold addNeighborsFor
      rw [hlk]
    rw [hred]
    constructor
    · exact fun hm => Or.inl hm
    · rintro (hm | ⟨i, hi, _⟩)
      · exact hm
      · cases hi
  | some i =>
    have hred : addNeighborsFor full t acc =
        full.foldl
          (fun a p => if p.2.foreignKeys.contains t then insertTable a p.1 p.2 else a)
          (i.foreignKeys.foldl
            (fun a r =>
              match lookupTable full r with
              | some ri => insertTable a r ri
              | none => a) acc) := by
      unfold addNeighborsFor
      rw [hlk]
    rw [hred, keyMem_referrerFold, keyMem_fkFold]
    constructor
    · rintro ((hm | hfk) | href)
      · exact Or.inl hm
      · exact Or.inr ⟨i, rfl, Or.inl hfk⟩
      · exact Or.inr ⟨i, rfl, Or.inr href⟩
    · rintro (hm | ⟨j, hj, hcase⟩)
      · exact Or.inl (Or.inl hm)
      · cases hj
        rcases hcase with hfk | href
        · exact Or.inl (Or.inr hfk)
        · exact Or.inr href

theorem keyMem_closureFold (full : List (String × TableInfo)) (seedIter : List String)
    (acc : List (String × TableInfo)) (u : String) :
    keyMem (seedIter.foldl (fun acc t => addNeighborsFor full t acc) acc) u = true
      ↔ keyMem acc u = true ∨
          ∃ t ∈ seedIter, ∃ i, lookupTable full t = some i ∧
            ((u ∈ i.foreignKeys ∧ (lookupTable full u).isSome = true)
              ∨ ∃ p ∈ full, p.1 = u ∧ t ∈ p.2.foreignKeys) := by
  induction seedIter generalizing acc with
  | nil => simp
  | cons t rest ih =>
    rw [List.foldl_cons, ih, keyMem_addNeighborsFor]
    simp only [List.mem_cons]
    constructor
    · rintro ((hm | hhead) | ⟨s, hs, hrest⟩)
      · exact Or.inl hm
      · exact Or.inr ⟨t, Or.inl rfl, hhead⟩
      · exact Or.inr ⟨s, Or.inr hs, hrest⟩
    · rintro (hm | ⟨s, rfl | hs, hrest⟩)
      · exact Or.inl (Or.inl hm)
      · exact Or.inl (Or.inr hrest)
      · exact Or.inr ⟨s, hs, hrest⟩

theorem keyMem_closureSchema (full : List (String × TableInfo)) (seed : List String)
    (u : String) :
    keyMem (closureSchema seed full) u = true
      ↔ (u ∈ seed ∧ (lookupTable full u).isSome = true) ∨
          ∃ t ∈ seed, ∃ i, lookupTable full t = some i ∧
            ((u ∈ i.foreignKeys ∧ (lookupTable full u).isSome = true)
              ∨ ∃ p ∈ full, p.1 = u ∧ t ∈ p.2.foreignKeys) := by
  unfold closureSchema
  rw [keyMem_closureFold, keyMem_addPrimary]

/-- C8 counterexample.  The closure step drops seed tables that are not in
the cached schema dictionary: with seed `[ghost]` over an empty schema the
output is empty, so the output table set is not a superset of the seed. -/
theorem closure_not_superset_counterexample :
    closureSchema ["ghost"] [] = []
    ∧ keyMem (closureSchema ["ghost"] []) ("ghost") = false := by
  decide

/-- C8 amended.  For a seed whose tables all exist in the schema graph, and
a schema graph whose foreign keys all point at existing tables: the closure
output is a superset of the seed; its table set is exactly the seed plus
the one-hop foreign-key neighbors of seed tables in both directions; and
the step is deterministic — it is a pure function of the seed and the
graph, so running it twice on the same seed yields identical output. -/
theorem closure_one_hop_characterization (seed : List String)
    (full : List (String × TableInfo))
    (hnodup : (full.map Prod.fst).Nodup)
    (hseed : ∀ t ∈ seed, (lookupTable full t).isSome = true)
    (hwf : ∀ p ∈ full, ∀ r ∈ p.2.foreignKeys, (lookupTable full r).isSome = true) :
    (∀ s ∈ seed, keyMem (closureSchema seed full) s = true)
    ∧ (∀ u, keyMem (closureSchema seed full) u = true ↔
        u ∈ seed ∨ ∃ s ∈ seed, fkEdge full s u ∨ fkEdge full u s)
    ∧ closureSchema seed full = closureSchema seed full := by
  have hchar : ∀ u, keyMem (closureSchema seed full) u = true ↔
      u ∈ seed ∨ ∃ s ∈ seed, fkEdge full s u ∨ fkEdge full u s := by
    intro u
    rw [keyMem_closureSchema]
    constructor
    · rintro (⟨hu, _⟩ | ⟨t, ht, i, hi, hcase⟩)
      · exact Or.inl hu
      · rcases hcase with ⟨hfk, _⟩ | ⟨p, hp, hpu, hpt⟩
        · exact Or.inr ⟨t, ht, Or.inl ⟨i, hi, hfk⟩⟩
        · refine Or.inr ⟨t, ht, Or.inr ⟨p.2, ?_, hpt⟩⟩
          rw [← hpu]
          exact lookupTable_of_mem hnodup hp
    · rintro (hu | ⟨s, hs, hedge⟩)
      · exact Or.inl ⟨hu, hseed u hu⟩
      · rcases hedge with ⟨i, hi, hfk⟩ | ⟨i, hi, hfk⟩
        · refine Or.inr ⟨s, hs, i, hi, Or.inl ⟨hfk, ?_⟩⟩
          rcases lookupTable_mem hi with ⟨p, hp, hp1, hp2⟩
          exact hwf p hp u (by rw [hp2]; exact hfk)
        · rcases lookupTable_mem hi with ⟨p, hp, hp1, hp2⟩
          rcases Option.isSome_iff_exists.mp (hseed s hs) with ⟨j, hj⟩
          exact Or.inr ⟨s, hs, j, hj, Or.inr ⟨p, hp, hp1, by rw [hp2]; exact hfk⟩⟩
  refine ⟨?_, hchar, rfl⟩
  intro s hs
  exact (hchar s).mpr (Or.inl hs)

/-- A three-table schema graph: `orders` refers to `customers`, and
`payments` refers to `orders`. -/
def c8Full : List (String × TableInfo) :=
  [("orders", ⟨["order_id"], ["customers"]⟩),
   ("customers", ⟨["customer_id"], []⟩),
   ("payments", ⟨["payment_id"], ["orders"]⟩)]

/-- Witness for the amended C8 theorem: from the seed `[orders]` the
closure contains the seed table `orders`, the outgoing neighbor
`customers`, and the incoming neighbor `payments`. -/
theorem closure_one_hop_characterization_witness :
    keyMem (closureSchema ["orders"] c8Full) ("orders") = true
    ∧ keyMem (closureSchema ["orders"] c8Full) ("customers") = true
    ∧ keyMem (closureSchema ["orders"] c8Full) ("payments") = true := by
  have h := closure_one_hop_characterization ["orders"] c8Full
    (by decide) (by decide) (by decide)
  refine ⟨h.1 ("orders") (by decide), ?_, ?_⟩
  · exact (h.2.1 ("customers")).mpr
      (Or.inr ⟨"orders", by decide, Or.inl ⟨⟨["order_id"], ["customers"]⟩, by decide, by decide⟩⟩)
  · exact (h.2.1 ("payments")).mpr
      (Or.inr ⟨"orders", by decide, Or.inr ⟨⟨["payment_id"], ["orders"]⟩, by decide, by decide⟩⟩)

/-! ### V2 output parser (`ImprovedSQLOutputParser.parse`)

The parser tries, in order: fenced code blocks
(`r'```sql\s*(.*?)\s*```'`, `r'```\s*(SELECT.*?)\s*```'`, `r'```(.*?)```'`,
each DOTALL+IGNORECASE, guarded by a nonempty capture containing `SELECT`),
then `SELECT`-statement patterns
(`r'(SELECT\s+.*?)(?:\n\n|\Z)'`, `r'(SELECT\s+.*?)(?:;|\Z)'`,
`r'(SELECT.*?)(?:\n\n|\Z)'`), then the raw text when it starts with
`SELECT`, then a line-by-line reconstruction.  Searches run over the
lowercased text, captures are taken from the original text at the same
indices. -/

/-- First index `i` in `[start, length)` at which `pat` is a prefix of
`s.drop i`. -/
def findSubFrom (pat s : List Char) : Nat → Nat → Option Nat
  | 0, _ => none
  | fuel + 1, i =>
    if i < s.length then
      if prefixChars pat (s.drop i) then some i else findSubFrom pat s fuel (i + 1)
    else none

/-- First index `e ≥ start` at which `\s*KW` matches: a possibly empty
whitespace run followed by the literal `kw` (the end position a lazy group
followed by `\s*KW` stops at). -/
def findWsStarThen (kw s : List Char) : Nat → Nat → Option Nat
  | 0, _ => none
  | fuel + 1, e =>
    if e ≤ s.length then
      let suff := s.drop e
      if prefixChars kw (suff.drop (wsRunLen suff)) then some e
      else findWsStarThen kw s fuel (e + 1)
    else none

/-- The literal triple fence. -/
def fence3 : List Char := ("```").toList

/-- The literal fence of an SQL code block. -/
def fenceSqlChars : List Char := ("```sql").toList

/-- `re.search(r'```sql\s*(.*?)\s*```', text, DOTALL | IGNORECASE)`: at each
occurrence of the opening marker, the group starts after the greedy
whitespace run and ends at the first position from which `\s*```` matches;
without a closing fence the search moves to the next occurrence. -/
def searchFenceSqlAux (low orig : List Char) : Nat → Nat → Option String
  | 0, _ => none
  | fuel + 1, i =>
    if i < low.length then
      if prefixChars fenceSqlChars (low.drop i) then
        let g0 := i + 6 + wsRunLen (low.drop (i + 6))
        match findWsStarThen fence3 low (low.length + 1) g0 with
        | some e => some (String.mk ((orig.drop g0).take (e - g0)))
        | none => searchFenceSqlAux low orig fuel (i + 1)
      else searchFenceSqlAux low orig fuel (i + 1)
    else none

/-- Search for the first `r'```sql\s*(.*?)\s*```'` capture. -/
def searchFenceSql (low orig : List Char) : Option String :=
  searchFenceSqlAux low orig (low.length + 1) 0

/-- `re.search(r'```\s*(SELECT.*?)\s*```', text, DOTALL | IGNORECASE)`. -/
def searchFenceSelectAux (low orig : List Char) : Nat → Nat → Option String
  | 0, _ => none
  | fuel + 1, i =>
    if i < low.length then
      if prefixChars fence3 (low.drop i) then
        let g0 := i + 3 + wsRunLen (low.drop (i + 3))
        if prefixChars selectChars (low.drop g0) then
          match findWsStarThen fence3 low (low.length + 1) (g0 + 6) with
          | some e => some (String.mk ((orig.drop g0).take (e - g0)))
          | none => searchFenceSelectAux low orig fuel (i + 1)
        else searchFenceSelectAux low orig fuel (i + 1)
      else searchFenceSelectAux low orig fuel (i + 1)
    else none

/-- Search for the first `r'```\s*(SELECT.*?)\s*```'` capture. -/
def searchFenceSelect (low orig : List Char) : Option String :=
  searchFenceSelectAux low orig (low.length + 1) 0

/-- `re.search(r'```(.*?)```', text, DOTALL)`: the group runs from right
after an opening fence to the next fence. -/
def searchFenceAnyAux (low orig : List Char) : Nat → Nat → Option String
  | 0, _ => none
  | fuel + 1, i =>
    if i < low.length then
      if prefixChars fence3 (low.drop i) then
        match findSubFrom fence3 low (low.length + 1) (i + 3) with
        | some e => some (String.mk ((orig.drop (i + 3)).take (e - (i + 3))))
        | none => searchFenceAnyAux low orig fuel (i + 1)
      else searchFenceAnyAux low orig fuel (i + 1)
    else none

/-- Search for the first `r'```(.*?)```'` capture. -/
def searchFenceAny (low orig : List Char) : Option String :=
  searchFenceAnyAux low orig (low.length + 1) 0

/-- Guard of parse method 1: a match counts only when the stripped capture
is nonempty and contains `SELECT` case-insensitively; the guarded value is
the stripped capture. -/
def guardSelect (g : Option String) : Option String :=
  match g with
  | none => none
  | some g0 =>
    let c := pyStrip g0
    if c ≠ "" && containsSub (upperStr c) ("SELECT") then some c else none

/-- Method 1 of `parse`: the three code-block patterns in order, each with
the `SELECT`-containment guard; a guard failure moves to the next pattern. -/
def method1 (low orig : List Char) : Option String :=
  match guardSelect (searchFenceSql low orig) with
  | some c => some c
  | none =>
    match guardSelect (searchFenceSelect low orig) with
    | some c => some c
    | none => guardSelect (searchFenceAny low orig)

/-- `re.search(r'(SELECT\s+.*?)(?:sep|\Z)', text, DOTALL | IGNORECASE)` for
`sep` either `\n\n` or `;`; with `needWs := false` this is the third
pattern `r'(SELECT.*?)(?:\n\n|\Z)'`.  Because `\Z` always matches at the
end of the text, the first `select` occurrence (with a following whitespace
character when `needWs`) always yields the match; the lazy group stops at
the first separator occurrence after it, or at the end of the text. -/
def searchSelectStmtAux (sep low orig : List Char) (needWs : Bool) :
    Nat → Nat → Option String
  | 0, _ => none
  | fuel + 1, i =>
    if i < low.length then
      if prefixChars selectChars (low.drop i) then
        let w := wsRunLen (low.drop (i + 6))
        if needWs && w == 0 then searchSelectStmtAux sep low orig needWs fuel (i + 1)
        else
          let start := i + 6 + (if needWs then w else 0)
          let e := (findSubFrom sep low (low.length + 1) start).getD low.length
          some (String.mk ((orig.drop i).take (e - i)))
      else searchSelectStmtAux sep low orig needWs fuel (i + 1)
    else none

/-- Search for the first capture of a `SELECT`-statement pattern. -/
def searchSelectStmt (sep low orig : List Char) (needWs : Bool) : Option String :=
  searchSelectStmtAux sep low orig needWs (low.length + 1) 0

/-- Method 2 of `parse`: the three `SELECT`-statement patterns in order;
the capture is stripped before cleaning. -/
def method2 (low orig : List Char) : Option String :=
  match searchSelectStmt (['\n', '\n']) low orig true with
  | some g => some (pyStrip g)
  | none =>
    match searchSelectStmt ([';']) low orig true with
    | some g => some (pyStrip g)
    | none =>
      match searchSelectStmt (['\n', '\n']) low orig false with
      | some g => some (pyStrip g)
      | none => none

/-- Python `s.split('\n')`. -/
def splitNlAux : List Char → List Char → List String
  | [], acc => [String.mk acc.reverse]
  | c :: rest, acc =>
    if c == '\n' then String.mk acc.reverse :: splitNlAux rest []
    else splitNlAux rest (c :: acc)

/-- Python `s.split('\n')`. -/
def splitNl (s : String) : List String := splitNlAux s.toList []

/-- The keyword list of parse method 4. -/
def sqlKeywordsM4 : List String := ["FROM", "WHERE", "GROUP", "ORDER", "HAVING", "LIMIT"]

/-- The line loop of parse method 4: collect stripped lines starting at a
line that begins with `SELECT`; keep keyword lines, stop after a line
ending in `;`, skip lines made only of commas, parentheses and whitespace. -/
def method4Lines : List String → Bool → List String
  | [], _ => []
  | line :: rest, inSql =>
    let l := pyStrip line
    if prefixChars ("SELECT".toList) (upperStr l).toList then
      l :: method4Lines rest true
    else if inSql ∧ l ≠ "" then
      if sqlKeywordsM4.any (fun k => containsSub (upperStr l) k) then
        l :: method4Lines rest inSql
      else if (l.toList.getLast? == some ';') then [l]
      else if pyStrip (String.mk (l.toList.filter
          (fun c => !(c == ',' || c == '(' || c == ')')))) = "" then
        method4Lines rest inSql
      else l :: method4Lines rest inSql
    else method4Lines rest inSql

/-- Method 4 of `parse`: only attempted when the text mentions `SELECT`,
`FROM` or `WHERE`; joins the collected lines with single spaces. -/
def method4 (text : String) : Option String :=
  if ["SELECT", "FROM", "WHERE"].any (fun k => containsSub (upperStr text) k) then
    let ls := method4Lines (splitNl text) false
    if ls.isEmpty then none else some (joinSep (" ") ls)
  else none

/-- `ImprovedSQLOutputParser._clean_sql`: collapse whitespace, drop one
trailing semicolon, and return `""` unless the result starts with `SELECT`
case-insensitively. -/
def v2CleanSql (sql : String) : String :=
  let s := normalizeWs sql
  let s := if (s.toList.getLast? == some ';') then String.mk s.toList.dropLast else s
  if prefixChars ("SELECT".toList) (upperStr s).toList then s else ""

/-- `ImprovedSQLOutputParser.parse`: strip the response, then try method 1
(code blocks), method 2 (`SELECT` patterns), method 3 (raw text starting
with `SELECT`), method 4 (line reconstruction); on total failure return
`""`. -/
def parseSQL (text0 : String) : String :=
  let text := pyStrip text0
  let low := lowerChars text.toList
  let orig := text.toList
  match method1 low orig with
  | some c => v2CleanSql c
  | none =>
    match method2 low orig with
    | some c => v2CleanSql c
    | none =>
      if prefixChars ("SELECT".toList) (upperStr text).toList then v2CleanSql text
      else
        match method4 text with
        | some c => v2CleanSql c
        | none => ""

/-! ### V2 state machine (`ImprovedSQLAgent`)

The LangGraph workflow `analyze_query → generate_sql → validate_sql →
(execute_sql | refine_sql | END)` with `refine_sql → validate_sql` as the
only cycle.  The oracle is a sequence of responses indexed by call number;
database acceptance is a boolean function of the submitted SQL text; the
graph `recursion_limit` of 10 is the loop fuel. -/

/-- One semantic-search hit's metadata, as consumed by
`_format_schema_context` (prompt construction only). -/
structure SchemaItem where
  itemType : String
  table : String
  column : String
  dataType : String
deriving DecidableEq

/-- One table of `db_manager.get_table_schema()` as used by the V2 agent
(ordered column names). -/
structure V2Table where
  columns : List String
deriving DecidableEq

/-- The `SQLGenerationState` TypedDict.  `execution_result` is `some` of
the executed statement when rows came back. -/
structure SQLGenerationState where
  user_query : String
  relevant_schema : List SchemaItem
  generated_sql : String
  validated_sql : String
  execution_result : Option String
  error_message : String
  confidence_score : Rat
  refinement_attempts : Nat
deriving DecidableEq

/-- External collaborators of one `ImprovedSQLAgent.process_query` run. -/
structure V2Env where
  /-- Hits returned by `search_enhanced_schema`. -/
  searchResults : List SchemaItem
  /-- The `db_manager.get_table_schema()` dictionary. -/
  fullSchema : List (String × V2Table)
  /-- Oracle responses, by call index (generation first, then refinements). -/
  llm : Nat → String
  /-- Whether `db_manager.execute_query` accepts a statement. -/
  dbOk : String → Bool
  /-- `settings.max_query_results` (10000 in `V2/config/settings.py`). -/
  maxQueryResults : Nat

/-- Threaded run context: the pipeline state plus instrumentation — the
next oracle call index, every statement submitted to the database, and the
number of schema fetches done by the fallback generator. -/
structure V2Ctx where
  st : SQLGenerationState
  llmIdx : Nat
  dbCalls : List String
  schemaFetches : Nat
deriving DecidableEq

/-- `self.max_refinement_attempts = 2` set in `ImprovedSQLAgent.__init__`. -/
def maxRefinementAttempts : Nat := 2

/-- The decision strings of `_should_execute_or_refine`; `finish` is the
Python string `"end"`. -/
inductive V2Decision
  | execute
  | refine
  | finish
deriving DecidableEq

/-- `ImprovedSQLAgent._should_execute_or_refine`: at the attempt cap always
end; otherwise refine on an error with low confidence, execute on a
validated statement, else end. -/
def shouldExecuteOrRefine (st : SQLGenerationState) : V2Decision :=
  if maxRefinementAttempts ≤ st.refinement_attempts then V2Decision.finish
  else if st.error_message ≠ "" then
    if st.confidence_score < (0.5 : Rat) then V2Decision.refine else V2Decision.finish
  else if st.validated_sql ≠ "" then V2Decision.execute
  else V2Decision.finish

/-- `ImprovedSQLAgent._generate_simple_fallback_query`: the first five
columns of the first table, or `SELECT 1 as test_query` when the schema is
empty. -/
def generateSimpleFallbackQuery (full : List (String × V2Table)) : String :=
  match full with
  | [] => "SELECT 1 as test_query"
  | (t, info) :: _ =>
    "SELECT " ++ joinSep (", ") (info.columns.take 5) ++ " FROM " ++ t ++ " LIMIT 10"

/-- `_analyze_query`: store the semantic-search hits in the state. -/
def analyzeNode (env : V2Env) (ctx : V2Ctx) : V2Ctx :=
  { ctx with st := { ctx.st with relevant_schema := env.searchResults } }

/-- `_generate_sql`: invoke the oracle, parse its response, and substitute
the simple fallback query (which fetches the schema from the database) when
parsing produced nothing. -/
def generateNode (env : V2Env) (ctx : V2Ctx) : V2Ctx :=
  let resp := env.llm ctx.llmIdx
  let parsed := parseSQL resp
  let sql := if parsed = "" then generateSimpleFallbackQuery env.fullSchema else parsed
  { ctx with
    st := { ctx.st with generated_sql := sql }
    llmIdx := ctx.llmIdx + 1
    schemaFetches := ctx.schemaFetches + (if parsed = "" then 1 else 0) }

/-- The denylist of `_validate_sql` — all seven verbs, `truncate`
included. -/
def dangerousV2 : List String :=
  ["drop", "delete", "truncate", "alter", "create", "insert", "update"]

/-- `_validate_sql`: structural checks and the denylist scan over the
lowercased stripped text, then a dry run with `LIMIT 1` appended when no
limiting clause is present; on success store `validated_sql` and confidence
`0.9`, on a database error store the error and confidence `0.3`. -/
def validateNode (env : V2Env) (ctx : V2Ctx) : V2Ctx :=
  let sql := ctx.st.generated_sql
  if sql = "" then
    { ctx with st := { ctx.st with error_message := "No SQL query generated" } }
  else
    let sqlLower := pyStrip (lowerStr sql)
    if !prefixChars ("select".toList) sqlLower.toList then
      { ctx with st := { ctx.st with error_message := "Query must start with SELECT" } }
    else
      match dangerousV2.find? (fun pat => containsSub sqlLower pat) with
      | some pat =>
        { ctx with st := { ctx.st with
            error_message := "Potentially dangerous SQL operation detected: " ++ pat } }
      | none =>
        let validationSql :=
          if !containsSub sqlLower ("limit") && !containsSub sqlLower ("top") then
            sql ++ " LIMIT 1"
          else sql
        if env.dbOk validationSql then
          { ctx with
            st := { ctx.st with validated_sql := sql, confidence_score := 0.9 }
            dbCalls := ctx.dbCalls ++ [validationSql] }
        else
          { ctx with
            st := { ctx.st with
              error_message := "SQL validation failed: db error"
              confidence_score := 0.3 }
            dbCalls := ctx.dbCalls ++ [validationSql] }

/-- `_execute_sql`: append the safety limit when absent and run the
validated statement. -/
def executeNode (env : V2Env) (ctx : V2Ctx) : V2Ctx :=
  let sql := ctx.st.validated_sql
  let sqlLower := lowerStr sql
  let sql2 :=
    if !containsSub sqlLower ("limit") && !containsSub sqlLower ("top") then
      sql ++ " LIMIT " ++ toString env.maxQueryResults
    else sql
  if env.dbOk sql2 then
    { ctx with
      st := { ctx.st with execution_result := some sql2 }
      dbCalls := ctx.dbCalls ++ [sql2] }
  else
    { ctx with
      st := { ctx.st with error_message := "SQL execution failed: db error" }
      dbCalls := ctx.dbCalls ++ [sql2] }

/-- `_refine_sql`: increment the attempt counter, re-invoke the oracle with
the prior SQL and error, and either adopt the parsed new candidate
(clearing the error) or record that refinement failed. -/
def refineNode (env : V2Env) (ctx : V2Ctx) : V2Ctx :=
  let st1 := { ctx.st with refinement_attempts := ctx.st.refinement_attempts + 1 }
  let resp := env.llm ctx.llmIdx
  let refined := parseSQL resp
  let st2 :=
    if refined ≠ "" ∧ refined ≠ st1.generated_sql then
      { st1 with generated_sql := refined, error_message := "" }
    else { st1 with error_message := "Unable to refine query further" }
  { ctx with st := st2, llmIdx := ctx.llmIdx + 1 }

/-- The conditional-edge cycle of the workflow, driven by
`_should_execute_or_refine`; the fuel models the graph recursion limit. -/
def v2Loop (env : V2Env) : Nat → V2Ctx → V2Ctx
  | 0, ctx => ctx
  | fuel + 1, ctx =>
    match shouldExecuteOrRefine ctx.st with
    | V2Decision.execute => executeNode env ctx
    | V2Decision.finish => ctx
    | V2Decision.refine => v2Loop env fuel (validateNode env (refineNode env ctx))

/-- The result dictionary of `ImprovedSQLAgent.process_query`, plus the
database-call instrumentation. -/
structure V2Run where
  user_query : String
  generated_sql : String
  execution_result : Option String
  error_message : String
  confidence_score : Rat
  refinement_attempts : Nat
  dbCalls : List String
deriving DecidableEq

/-- The initial `SQLGenerationState` built by `process_query`. -/
def v2InitState (q : String) : SQLGenerationState := ⟨q, [], "", "", none, "", 0, 0⟩

/-- `ImprovedSQLAgent.process_query`: run the workflow and assemble the
result; the returned SQL is `validated_sql or generated_sql`. -/
def v2Process (env : V2Env) (q : String) : V2Run :=
  let c0 : V2Ctx := ⟨v2InitState q, 0, [], 0⟩
  let c1 := validateNode env (generateNode env (analyzeNode env c0))
  let cf := v2Loop env 10 c1
  ⟨q,
    (if cf.st.validated_sql ≠ "" then cf.st.validated_sql else cf.st.generated_sql),
    cf.st.execution_result,
    cf.st.error_message,
    cf.st.confidence_score,
    cf.st.refinement_attempts,
    cf.dbCalls⟩

/-! ### Node bookkeeping lemmas -/

theorem analyzeNode_attempts (env : V2Env) (ctx : V2Ctx) :
    (analyzeNode env ctx).st.refinement_attempts = ctx.st.refinement_attempts := rfl

theorem generateNode_attempts (env : V2Env) (ctx : V2Ctx) :
    (generateNode env ctx).st.refinement_attempts = ctx.st.refinement_attempts := rfl

theorem validateNode_attempts (env : V2Env) (ctx : V2Ctx) :
    (validateNode env ctx).st.refinement_attempts = ctx.st.refinement_attempts := by
  unfold validateNode
  dsimp only
  split
  · rfl
  · split
    · rfl
    · split
      · rfl
      · split <;> (try split) <;> rfl

theorem executeNode_attempts (env : V2Env) (ctx : V2Ctx) :
    (executeNode env ctx).st.refinement_attempts = ctx.st.refinement_attempts := by
  unfold executeNode
  dsimp only
  split <;> (try split) <;> rfl

theorem refineNode_attempts (env : V2Env) (ctx : V2Ctx) :
    (refineNode env ctx).st.refinement_attempts = ctx.st.refinement_attempts + 1 := by
  unfold refineNode
  dsimp only
  split <;> rfl

theorem refineNode_dbCalls (env : V2Env) (ctx : V2Ctx) :
    (refineNode env ctx).dbCalls = ctx.dbCalls := rfl

theorem validateNode_dbCalls (env : V2Env) (ctx : V2Ctx) :
    ∃ l, (validateNode env ctx).dbCalls = ctx.dbCalls ++ l := by
  unfold validateNode
  dsimp only
  split
  · exact ⟨[], (List.append_nil _).symm⟩
  · split
    · exact ⟨[], (List.append_nil _).symm⟩
    · split
      · exact ⟨[], (List.append_nil _).symm⟩
      · split <;> (try split) <;> exact ⟨_, rfl⟩

theorem executeNode_dbCalls (env : V2Env) (ctx : V2Ctx) :
    ∃ l, (executeNode env ctx).dbCalls = ctx.dbCalls ++ l := by
  unfold executeNode
  dsimp only
  split <;> (try split) <;> exact ⟨_, rfl⟩

theorem v2Loop_dbCalls_mono (env : V2Env) (fuel : Nat) (ctx : V2Ctx) :
    ∃ l, (v2Loop env fuel ctx).dbCalls = ctx.dbCalls ++ l := by
  induction fuel generalizing ctx with
  | zero => exact ⟨[], (List.append_nil _).symm⟩
  | succ n ih =>
    unfold v2Loop
    cases shouldExecuteOrRefine ctx.st with
    | execute => exact executeNode_dbCalls env ctx
    | finish => exact ⟨[], (List.append_nil _).symm⟩
    | refine =>
      rcases ih (validateNode env (refineNode env ctx)) with ⟨l1, hl1⟩
      rcases validateNode_dbCalls env (refineNode env ctx) with ⟨l2, hl2⟩
      refine ⟨l2 ++ l1, ?_⟩
      rw [hl1, hl2, refineNode_dbCalls, List.append_assoc]

/-! ### Claim C2 -/

theorem v2Loop_attempts_le (env : V2Env) (fuel : Nat) (ctx : V2Ctx)
    (h : ctx.st.refinement_attempts ≤ maxRefinementAttempts) :
    (v2Loop env fuel ctx).st.refinement_attempts ≤ maxRefinementAttempts := by
  induction fuel generalizing ctx with
  | zero => exact h
  | succ n ih =>
    unfold v2Loop
    cases hd : shouldExecuteOrRefine ctx.st with
    | execute => rw [executeNode_attempts]; exact h
    | finish => exact h
    | refine =>
      apply ih
      rw [validateNode_attempts, refineNode_attempts]
      have hlt : ctx.st.refinement_attempts < maxRefinementAttempts := by
        by_contra hge
        push_neg at hge
        unfold shouldExecuteOrRefine at hd
        rw [if_pos hge] at hd
        cases hd
      omega

/-- C2.  Every run of the V2 agent returns `refinement_attempts` at most
the configured maximum (2), and once the counter has reached that maximum
the decision function transitions only to `END` — never to another
refinement, and not even to execution. -/
theorem refinement_count_bounded (env : V2Env) (q : String) :
    (v2Process env q).refinement_attempts ≤ maxRefinementAttempts
    ∧ ∀ st : SQLGenerationState, maxRefinementAttempts ≤ st.refinement_attempts →
        shouldExecuteOrRefine st = V2Decision.finish := by
  constructor
  · show (v2Loop env 10
        (validateNode env (generateNode env (analyzeNode env
          ⟨v2InitState q, 0, [], 0⟩)))).st.refinement_attempts ≤ maxRefinementAttempts
    apply v2Loop_attempts_le
    rw [validateNode_attempts, generateNode_attempts, analyzeNode_attempts]
    exact Nat.zero_le _
  · intro st hge
    unfold shouldExecuteOrRefine
    rw [if_pos hge]

/-- An environment whose oracle and database always misbehave, exercising
the refinement cap. -/
def envC2 : V2Env :=
  { searchResults := []
    fullSchema := [("orders", ⟨["order_id"]⟩)]
    llm := fun n => "SELECT broken FROM nosuch" ++ toString n
    dbOk := fun _ => false
    maxQueryResults := 10000 }

/-- Witness for C2 at `envC2`, including the decision at a state that has
reached the cap. -/
theorem refinement_count_bounded_witness :
    (v2Process envC2 ("count orders")).refinement_attempts ≤ maxRefinementAttempts
    ∧ shouldExecuteOrRefine ⟨"count orders", [], "SELECT 1", "SELECT 1", none, "err", 0, 2⟩
        = V2Decision.finish :=
  ⟨(refinement_count_bounded envC2 ("count orders")).1,
   (refinement_count_bounded envC2 ("count orders")).2 _ (by decide)⟩

/-! ### Claim C9 -/

/-- An oracle that answers plain prose with no `SELECT` (nor `FROM` or
`WHERE`) on the initial attempt and on any refinement. -/
def envC9 : V2Env :=
  { searchResults := []
    fullSchema := [("orders", ⟨["order_id", "customer_id", "total_amount"]⟩)]
    llm := fun n =>
      if n = 0 then "I cannot help with that request." else "Sorry, I am unable to produce a query."
    dbOk := fun _ => true
    maxQueryResults := 10000 }

/-- C9 counterexample.  With oracle output containing no `SELECT` at all,
the V2 run does not end in a generation failure with no database call: the
parser yields `""`, `_generate_sql` substitutes the fallback query built
from the first schema table, and the pipeline validates and executes it
against the database. -/
theorem v2_noselect_not_generation_failure :
    parseSQL ("I cannot help with that request.") = ""
    ∧ (v2Process envC9 ("list orders")).generated_sql
        = "SELECT order_id, customer_id, total_amount FROM orders LIMIT 10"
    ∧ (v2Process envC9 ("list orders")).error_message = ""
    ∧ (v2Process envC9 ("list orders")).dbCalls.isEmpty = false := by
  decide

/-- C9 amended.  When the initial oracle response parses to no SQL, the V2
agent does not fail generation: the generate node substitutes the
deterministic fallback query (first five columns of the first table, or
`SELECT 1 as test_query`), which is never empty; and whenever that fallback
passes the validator's static checks, the run submits at least one
statement to the database (the validation dry run). -/
theorem v2_noselect_uses_fallback (env : V2Env) (q : String)
    (hparse : parseSQL (env.llm 0) = "") :
    (generateNode env (analyzeNode env ⟨v2InitState q, 0, [], 0⟩)).st.generated_sql
        = generateSimpleFallbackQuery env.fullSchema
    ∧ generateSimpleFallbackQuery env.fullSchema ≠ ""
    ∧ ((prefixChars ("select".toList)
          (pyStrip (lowerStr (generateSimpleFallbackQuery env.fullSchema))).toList) = true →
        dangerousV2.find? (fun pat =>
          containsSub (pyStrip (lowerStr (generateSimpleFallbackQuery env.fullSchema))) pat)
            = none →
        (v2Process env q).dbCalls ≠ []) := by
  have hgen : (generateNode env (analyzeNode env ⟨v2InitState q, 0, [], 0⟩)).st.generated_sql
      = generateSimpleFallbackQuery env.fullSchema := by
    show (if parseSQL (env.llm 0) = "" then generateSimpleFallbackQuery env.fullSchema
          else parseSQL (env.llm 0)) = generateSimpleFallbackQuery env.fullSchema
    rw [hparse]
    rw [if_pos rfl]
  have hfb : generateSimpleFallbackQuery env.fullSchema ≠ "" := by
    unfold generateSimpleFallbackQuery
    cases env.fullSchema with
    | nil => decide
    | cons p rest =>
      intro h
      have hlen := congrArg String.length h
      rw [String.length_append, String.length_append, String.length_append,
        String.length_append] at hlen
      rw [show String.length ("SELECT ") = 7 by rfl,
        show String.length (" FROM ") = 6 by rfl,
        show String.length (" LIMIT 10") = 9 by rfl,
        show String.length ("") = 0 by rfl] at hlen
      omega
  refine ⟨hgen, hfb, ?_⟩
  intro hsel hdang
  have hc0 : (generateNode env (analyzeNode env ⟨v2InitState q, 0, [], 0⟩)).dbCalls = [] := rfl
  set g := generateNode env (analyzeNode env ⟨v2InitState q, 0, [], 0⟩) with hg
  have hval : ∃ v, (validateNode env g).dbCalls = [v] := by
    unfold validateNode
    dsimp only
    rw [hgen]
    rw [if_neg hfb]
    rw [if_neg (by rw [hsel]; simp)]
    rw [hdang]
    dsimp only
    rw [hc0]
    split <;> (try split) <;> exact ⟨_, rfl⟩
  rcases hval with ⟨v, hv⟩
  rcases v2Loop_dbCalls_mono env 10 (validateNode env g) with ⟨l, hl⟩
  show (v2Loop env 10 (validateNode env g)).dbCalls ≠ []
  rw [hl, hv]
  simp

/-- Witness for the amended C9 theorem at `envC9`. -/
theorem v2_noselect_uses_fallback_witness :
    (generateNode envC9 (analyzeNode envC9 ⟨v2InitState ("list orders"), 0, [], 0⟩)).st.generated_sql
        = generateSimpleFallbackQuery envC9.fullSchema
    ∧ (v2Process envC9 ("list orders")).dbCalls.isEmpty = false := by
  have h := v2_noselect_uses_fallback envC9 ("list orders") (by decide)
  refine ⟨h.1, ?_⟩
  have h2 := h.2.2 (by decide) (by decide)
  cases hl : (v2Process envC9 ("list orders")).dbCalls with
  | nil => exact absurd hl h2
  | cons a l => rfl

end GenBI
